import Mathlib

/-!
Verification development for the Warhorse social backend
(crates warhorse_server / warhorse_protocol).

The definitions below are a shallow embedding of the server code:
`InMemoryDatabase` mirrors warhorse_server/src/database/db_in_memory.rs,
`DataAccess` operations mirror warhorse_server/src/data_access.rs, and the
`WarhorseServer` command functions mirror warhorse_server/src/server.rs.
Rust HashMaps are modelled as association lists with first-match lookup and
insert-replaces semantics; Vec is a Lean List.
-/

deriving instance DecidableEq for Except

namespace Warhorse


/-! ### Association-list model of Rust HashMap -/

/-- Lookup in an association list: first entry with the given key
(Rust `HashMap::get`). -/
def mapGet {K V : Type} [DecidableEq K] : List (K × V) → K → Option V
  | [], _ => none
  | p :: m, k => if p.1 = k then some p.2 else mapGet m k

/-- Rust `HashMap::insert`: replace the value when the key is present,
append a fresh entry otherwise. -/
def mapInsert {K V : Type} [DecidableEq K] (m : List (K × V)) (k : K) (v : V) :
    List (K × V) :=
  match mapGet m k with
  | some _ => m.map (fun p => if p.1 = k then (k, v) else p)
  | none => m ++ [(k, v)]

/-- Rust `HashMap::get_mut` followed by an in-place mutation of the value:
apply `f` to the value at key `k` (no change when `k` is absent). -/
def mapUpdate {K V : Type} [DecidableEq K] : List (K × V) → K → (V → V) → List (K × V)
  | [], _, _ => []
  | p :: m, k, f => (if p.1 = k then (p.1, f p.2) else p) :: mapUpdate m k f

/-- The keys of an association list. -/
def mapKeys {K V : Type} (m : List (K × V)) : List K := m.map (·.1)

/-! ### Protocol types (warhorse_protocol/src/lib.rs, as used by server.rs) -/

abbrev UserId := String

abbrev RoomId := String

/-- Transport socket id (socketioxide `Sid`), modelled as a natural number. -/
abbrev SocketId := Nat

def ACCOUNT_NAME_MAX_LENGTH : Nat := 20

def ACCOUNT_NAME_MIN_LENGTH : Nat := 3

def DISPLAY_NAME_MAX_LENGTH : Nat := 20

def DISPLAY_NAME_MIN_LENGTH : Nat := 3

def PASSWORD_MIN_LENGTH : Nat := 8

inductive Language where
  | english
  | spanish
  | french
deriving DecidableEq, Repr

/-- Friend status as used by server.rs and db_in_memory.rs (the variants
`friendRequestSent` / `friendRequestReceived` appear in the database layer). -/
inductive FriendStatus where
  | online
  | offline
  | friendRequestSent
  | friendRequestReceived
  | blocked
deriving DecidableEq, Repr

structure Friend where
  id : UserId
  display_name : String
  status : FriendStatus
deriving DecidableEq, Repr

structure UserPartial where
  id : UserId
  display_name_lower : String
  display_name : String
  account_name_lower : Option String
  account_name : Option String
  email : Option String
  language : Language
deriving DecidableEq, Repr

inductive LoginUserIdentity where
  | AccountName (name : String)
  | Email (email : String)
deriving DecidableEq, Repr

structure UserLogin where
  language : Language
  identity : LoginUserIdentity
  password : String
deriving DecidableEq, Repr

structure UserRegistration where
  language : Language
  account_name : String
  email : String
  display_name : String
  password : String
deriving DecidableEq, Repr

structure FriendRequest where
  language : Language
  friend_id : UserId
deriving DecidableEq, Repr

structure AcceptFriendRequest where
  language : Language
  friend_id : UserId
deriving DecidableEq, Repr

structure RejectFriendRequest where
  language : Language
  friend_id : UserId
deriving DecidableEq, Repr

structure RemoveFriendRequest where
  language : Language
  friend_id : UserId
deriving DecidableEq, Repr

structure BlockUserRequest where
  language : Language
  user_id : UserId
deriving DecidableEq, Repr

structure UnblockUserRequest where
  language : Language
  user_id : UserId
deriving DecidableEq, Repr

inductive ChatChannel where
  | Room (room_id : RoomId)
  | PrivateMessage (user_id : UserId)
deriving DecidableEq, Repr

structure SendChatMessage where
  language : Language
  channel : ChatChannel
  message : String
deriving DecidableEq, Repr

/-- The outbound chat message composed in server.rs: display name, channel,
text, Unix time (u32 in the source, modelled as Nat). -/
structure ChatMessage where
  display_name : String
  channel : ChatChannel
  message : String
  time : Nat
deriving DecidableEq, Repr

structure FriendRequestAccepted where
  friend : Friend
deriving DecidableEq, Repr

/-! ### Socket.IO event names (warhorse_protocol/src/lib.rs) -/

def EVENT_RECEIVE_HELLO : String := "hello"

def EVENT_SEND_USER_LOGIN : String := "/user/login"

def EVENT_SEND_USER_REGISTER : String := "/user/register"

def EVENT_SEND_USER_BLOCK : String := "/user/block"

def EVENT_SEND_USER_UNBLOCK : String := "/user/unblock"

def EVENT_SEND_FRIEND_REQUEST : String := "/friend/request"

def EVENT_SEND_FRIEND_REQUEST_ACCEPT : String := "/friend/request/accept"

def EVENT_SEND_FRIEND_REQUEST_REJECT : String := "/friend/request/reject"

def EVENT_SEND_FRIEND_REMOVE : String := "/friend/remove"

def EVENT_SEND_CHAT_MESSAGE : String := "/chat/send"

def EVENT_RECEIVE_USER_LOGIN : String := "/user/login"

def EVENT_RECEIVE_ERROR : String := "/error"

def EVENT_RECEIVE_FRIENDS : String := "/friends/receive"

def EVENT_RECEIVE_FRIEND_REQUESTS : String := "/friend_requests/receive"

def EVENT_RECEIVE_FRIEND_REQUEST_ACCEPTED : String := "/friend_request/accepted"

def EVENT_RECEIVE_CHAT_MESSAGE : String := "/chat/receive"

/-! ### Validation helpers (warhorse_server/src/utils.rs) -/

/-- Rust `String::len`: the UTF-8 byte length. -/
def utf8Len (s : String) : Nat := s.data.foldl (fun n c => n + c.utf8Size) 0

/-- Rust `String::to_lowercase` (per-character lowercasing; identical on the
ASCII inputs this system handles). -/
def lowercase (s : String) : String := String.mk (s.data.map Char.toLower)

/-- A character of the email local part, per the regex character class
in utils.rs (ASCII letters and digits plus the listed punctuation,
given here by code point). -/
def isLocalChar (c : Char) : Bool :=
  c.isAlphanum ||
    [33, 35, 36, 37, 38, 39, 42, 43, 45, 46, 47, 61, 63, 94, 95, 96,
     123, 124, 125, 126].contains c.toNat

def isLabelChar (c : Char) : Bool := c.isAlphanum || c.toNat = 45

/-- One domain label per the regex in utils.rs: an alphanumeric character,
optionally followed by up to 61 characters of alphanumerics and hyphens and
a final alphanumeric character. -/
def labelOk : List Char → Bool
  | [] => false
  | [c] => c.isAlphanum
  | c :: rest =>
    c.isAlphanum && rest.length ≤ 62 &&
      (match rest.getLast? with
       | some d => d.isAlphanum
       | none => false) &&
      rest.dropLast.all isLabelChar

/-- Split a character list at every occurrence of the separator. -/
def splitChars (sep : Char) : List Char → List (List Char)
  | [] => [[]]
  | c :: cs =>
    let r := splitChars sep cs
    if c = sep then [] :: r
    else
      match r with
      | [] => [[c]]
      | h :: t => (c :: h) :: t

/-- utils.rs `is_valid_email`: total length at most 254 bytes and the
anchored regex local@label(.label)*. -/
def is_valid_email (email : String) : Bool :=
  if utf8Len email > 254 then false
  else
    match splitChars (Char.ofNat 64) email.data with
    | [localPart, domain] =>
      !localPart.isEmpty && localPart.all isLocalChar &&
        (splitChars (Char.ofNat 46) domain).all labelOk
    | _ => false

/-! ### i18n (warhorse_server/src/i18n.rs); `ServerError` is a string -/

def hello_message : Language → String
  | .english => "You are now connected to the Warhorse server"
  | .spanish => "Ahora estás conectado al servidor de Warhorse"
  | .french => "Vous êtes maintenant connecté au serveur Warhorse"

def invalid_login : Language → String
  | .english => "Invalid login, please ensure the information is correct"
  | .spanish => "Inicio de sesión inválido, asegúrese de que la información sea correcta"
  | .french => "Connexion invalide, veuillez vous assurer que les informations sont correctes"

def account_name_already_exists : Language → String
  | .english => "Account name already exists"
  | .spanish => "El nombre de la cuenta ya existe"
  | .french => "Le nom du compte existe déjà"

def email_already_exists : Language → String
  | .english => "Email already exists"
  | .spanish => "El correo electrónico ya existe"
  | .french => "L'email existe déjà"

def invalid_email : Language → String
  | .english => "Invalid email"
  | .spanish => "Correo electrónico inválido"
  | .french => "Email invalide"

def invalid_password (lang : Language) : String :=
  match lang with
  | .english => "Passwords must be at least " ++ toString PASSWORD_MIN_LENGTH ++ " characters long"
  | .spanish => "Las contraseñas deben tener al menos " ++ toString PASSWORD_MIN_LENGTH ++ " caracteres"
  | .french => "Les mots de passe doivent comporter au moins " ++ toString PASSWORD_MIN_LENGTH ++ " caractères"

def invalid_account_name (lang : Language) : String :=
  match lang with
  | .english => "Account names must be between " ++ toString ACCOUNT_NAME_MIN_LENGTH ++ " and " ++ toString ACCOUNT_NAME_MAX_LENGTH ++ " characters long"
  | .spanish => "Los nombres de cuenta deben tener entre " ++ toString ACCOUNT_NAME_MIN_LENGTH ++ " y " ++ toString ACCOUNT_NAME_MAX_LENGTH ++ " caracteres"
  | .french => "Les noms de compte doivent comporter entre " ++ toString ACCOUNT_NAME_MIN_LENGTH ++ " et " ++ toString ACCOUNT_NAME_MAX_LENGTH ++ " caractères"

def invalid_display_name (lang : Language) : String :=
  match lang with
  | .english => "Display names must be between " ++ toString DISPLAY_NAME_MIN_LENGTH ++ " and " ++ toString DISPLAY_NAME_MAX_LENGTH ++ " characters long"
  | .spanish => "Los nombres de visualización deben tener entre " ++ toString DISPLAY_NAME_MIN_LENGTH ++ " y " ++ toString DISPLAY_NAME_MAX_LENGTH ++ " caracteres"
  | .french => "Les noms d'affichage doivent comporter entre " ++ toString DISPLAY_NAME_MIN_LENGTH ++ " et " ++ toString DISPLAY_NAME_MAX_LENGTH ++ " caractères"

/-- Modelled from the spec: the i18n catalog entry for the `AlreadyFriends`
failure kind. server.rs calls `crate::i18n::already_friends`, but the i18n.rs
revision in the snapshot predates that function; per spec section 4.2 the
catalog is an opaque per-language lookup, so the three strings are opaque
distinct values. -/
def already_friends : Language → String
  | .english => "You are already friends with this user"
  | .spanish => "Ya eres amigo de este usuario"
  | .french => "Vous êtes déjà ami avec cet utilisateur"

/-- Modelled from the spec: the i18n catalog entry for the `UserBlocked`
failure kind (same situation as `already_friends`). -/
def user_is_blocked : Language → String
  | .english => "This user is blocked"
  | .spanish => "Este usuario está bloqueado"
  | .french => "Cet utilisateur est bloqué"

def validate_password (password : String) (language : Language) : Except String Unit :=
  if utf8Len password < PASSWORD_MIN_LENGTH then .error (invalid_password language)
  else .ok ()

def validate_account_name (account_name : String) (language : Language) : Except String Unit :=
  if utf8Len account_name < ACCOUNT_NAME_MIN_LENGTH ∨ utf8Len account_name > ACCOUNT_NAME_MAX_LENGTH then
    .error (invalid_account_name language)
  else .ok ()

def validate_display_name (display_name : String) (language : Language) : Except String Unit :=
  if utf8Len display_name < DISPLAY_NAME_MIN_LENGTH ∨ utf8Len display_name > DISPLAY_NAME_MAX_LENGTH then
    .error (invalid_display_name language)
  else .ok ()

/-! ### In-memory database (warhorse_server/src/database/db_in_memory.rs) -/

structure InMemoryDatabase where
  users : List (UserId × UserPartial)
  friendships : List (UserId × List UserId)
  friend_requests : List (UserId × List UserId)
  user_blocks : List (UserId × UserId)
  next_user_id : Nat
deriving DecidableEq, Repr

namespace InMemoryDatabase

def empty : InMemoryDatabase :=
  { users := [], friendships := [], friend_requests := [], user_blocks := [],
    next_user_id := 0 }

def user_exists (db : InMemoryDatabase) (user_id : UserId) : Bool :=
  (mapGet db.users user_id).isSome

def users_insert (db : InMemoryDatabase) (user : UserRegistration) :
    UserId × InMemoryDatabase :=
  let new_user_id := toString db.next_user_id
  let u : UserPartial :=
    { id := new_user_id
      language := user.language
      display_name_lower := lowercase user.display_name
      display_name := user.display_name
      account_name_lower := some (lowercase user.account_name)
      account_name := some user.account_name
      email := some user.email }
  (new_user_id,
    { db with
        next_user_id := db.next_user_id + 1
        users := mapInsert db.users new_user_id u })

def users_get (db : InMemoryDatabase) (user_id : UserId) : Option UserPartial :=
  mapGet db.users user_id

def users_get_by_account_name (db : InMemoryDatabase) (account_name : String) :
    Option UserPartial :=
  (db.users.find? (fun p => decide (p.2.account_name = some account_name))).map (·.2)

def users_get_by_email (db : InMemoryDatabase) (email : String) : Option UserPartial :=
  (db.users.find? (fun p => decide (p.2.email = some email))).map (·.2)

def user_blocks_insert (db : InMemoryDatabase) (user_id blocked_id : UserId) :
    InMemoryDatabase :=
  { db with user_blocks := db.user_blocks ++ [(user_id, blocked_id)] }

def user_blocks_remove (db : InMemoryDatabase) (user_id blocked_id : UserId) :
    InMemoryDatabase :=
  { db with
      user_blocks :=
        db.user_blocks.filter
          (fun p => !(decide (p.1 = user_id) && decide (p.2 = blocked_id))) }

def user_blocks_get_blocks_for_user (db : InMemoryDatabase) (user_id : UserId) :
    List Friend :=
  (db.user_blocks.filterMap
      (fun p => if p.1 = user_id then db.users_get p.2 else none)).map
    (fun w => { id := w.id, display_name := w.display_name, status := .blocked })

def user_get_pending_friend_requests_for_user (db : InMemoryDatabase)
    (user_id : UserId) : List Friend :=
  (db.friend_requests.filterMap
      (fun p => if user_id ∈ p.2 then db.users_get p.1 else none)).map
    (fun w =>
      { id := w.id, display_name := w.display_name, status := .friendRequestReceived })

def user_get_friend_request_invites_sent_for_user (db : InMemoryDatabase)
    (user_id : UserId) : List Friend :=
  (db.friend_requests.filterMap
      (fun p => if p.1 = user_id then some p.2 else none)).flatMap
    (fun l =>
      (l.filterMap db.users_get).map
        (fun w =>
          { id := w.id, display_name := w.display_name, status := .friendRequestSent }))

def user_is_blocked (db : InMemoryDatabase) (user_id blocked_id : UserId) : Bool :=
  db.user_blocks.any (fun p => decide (p.1 = user_id) && decide (p.2 = blocked_id))

def friend_requests_insert (db : InMemoryDatabase) (user_id friend_id : UserId) :
    InMemoryDatabase :=
  match mapGet db.friend_requests user_id with
  | some _ =>
    { db with
        friend_requests := mapUpdate db.friend_requests user_id (fun l => l ++ [friend_id]) }
  | none =>
    { db with friend_requests := db.friend_requests ++ [(user_id, [friend_id])] }

def friend_requests_remove (db : InMemoryDatabase) (user_id friend_id : UserId) :
    InMemoryDatabase :=
  { db with
      friend_requests :=
        mapUpdate db.friend_requests user_id
          (fun l => l.filter (fun x => !decide (x = friend_id))) }

def friends_add (db : InMemoryDatabase) (user_id friend_id : UserId) :
    InMemoryDatabase :=
  match mapGet db.friendships user_id with
  | some _ =>
    { db with friendships := mapUpdate db.friendships user_id (fun l => l ++ [friend_id]) }
  | none => { db with friendships := db.friendships ++ [(user_id, [friend_id])] }

def friends_remove (db : InMemoryDatabase) (user_id friend_id : UserId) :
    InMemoryDatabase :=
  { db with
      friendships :=
        mapUpdate db.friendships user_id
          (fun l => l.filter (fun x => !decide (x = friend_id))) }

def friends_get (db : InMemoryDatabase) (user_id : UserId) : List Friend :=
  ((mapGet db.friendships user_id).getD []).filterMap
    (fun y =>
      (db.users_get y).map
        (fun w => { id := w.id, display_name := w.display_name, status := .offline }))

end InMemoryDatabase

/-! ### Data access layer (warhorse_server/src/data_access.rs) -/

namespace DataAccess

def user_exists (db : InMemoryDatabase) (user_id : UserId) : Bool :=
  db.user_exists user_id

def users_insert (db : InMemoryDatabase) (user : UserRegistration) :
    UserId × InMemoryDatabase :=
  db.users_insert user

def user_get_pending_friend_requests_for_user (db : InMemoryDatabase)
    (user_id : UserId) : List Friend :=
  db.user_get_pending_friend_requests_for_user user_id

/-- data_access.rs `friends_get`: the combined list of friendships, pending
incoming requests, sent invites and blocks. -/
def friends_get (db : InMemoryDatabase) (user_id : UserId) : List Friend :=
  db.friends_get user_id ++
    db.user_get_pending_friend_requests_for_user user_id ++
    db.user_get_friend_request_invites_sent_for_user user_id ++
    db.user_blocks_get_blocks_for_user user_id

def friends_add (db : InMemoryDatabase) (user_id friend_id : UserId) :
    InMemoryDatabase :=
  db.friends_add user_id friend_id

/-- data_access.rs `friends_remove`: remove the friendship entry and also the
friend request in the same direction. -/
def friends_remove (db : InMemoryDatabase) (user_id friend_id : UserId) :
    InMemoryDatabase :=
  (db.friends_remove user_id friend_id).friend_requests_remove user_id friend_id

def friend_requests_insert (db : InMemoryDatabase) (user_id friend_id : UserId) :
    InMemoryDatabase :=
  db.friend_requests_insert user_id friend_id

def friend_requests_remove (db : InMemoryDatabase) (user_id friend_id : UserId) :
    InMemoryDatabase :=
  db.friend_requests_remove user_id friend_id

def users_get (db : InMemoryDatabase) (user_id : UserId) : Option UserPartial :=
  db.users_get user_id

def users_get_by_account_name (db : InMemoryDatabase) (account_name : String) :
    Option UserPartial :=
  db.users_get_by_account_name account_name

def users_get_by_email (db : InMemoryDatabase) (email : String) : Option UserPartial :=
  db.users_get_by_email email

/-- data_access.rs `user_blocks_insert`: insert the block, tear down the
friendship in both directions, and remove friend requests; the last removal
repeats the `(user_id, blocked_id)` direction, mirroring the duplicated line
in the source. -/
def user_blocks_insert (db : InMemoryDatabase) (user_id blocked_id : UserId) :
    InMemoryDatabase :=
  let db1 := db.user_blocks_insert user_id blocked_id
  let db2 := friends_remove db1 user_id blocked_id
  let db3 := friends_remove db2 blocked_id user_id
  let db4 := friend_requests_remove db3 user_id blocked_id
  friend_requests_remove db4 user_id blocked_id

def user_blocks_remove (db : InMemoryDatabase) (user_id blocked_id : UserId) :
    InMemoryDatabase :=
  db.user_blocks_remove user_id blocked_id

def user_is_blocked (db : InMemoryDatabase) (user_id blocked_id : UserId) : Bool :=
  db.user_is_blocked user_id blocked_id

end DataAccess

/-! ### Server state and commands (warhorse_server/src/server.rs) -/

/-- The server: the database (behind `DataAccess`), the user-to-socket map,
the set of live transport sockets, and an ambient clock used for chat
timestamps. -/
structure WarhorseServer where
  db : InMemoryDatabase
  user_sockets : List (UserId × SocketId)
  sockets : List SocketId
  now : Nat
deriving DecidableEq, Repr

/-- An outbound payload, by event family. -/
inductive Payload where
  | errorMsg (msg : String)
  | chat (m : ChatMessage)
  | friends (l : List Friend)
  | friendRequests (l : List Friend)
  | friendRequestAccepted (f : Friend)
  | loginAck
  | hello (msg : String)
deriving DecidableEq, Repr

/-- One socket.emit call: target socket, event name, payload. -/
structure Emission where
  target : SocketId
  event : String
  payload : Payload
deriving DecidableEq, Repr

/-- The result of one server command: next state, emissions in order, and
the command result. -/
structure CmdOutput where
  state : WarhorseServer
  emissions : List Emission
  res : Except String Unit

namespace WarhorseServer

def get_online_status (s : WarhorseServer) (user_id : UserId) : FriendStatus :=
  if (mapGet s.user_sockets user_id).isSome then .online else .offline

def get_socket_id (s : WarhorseServer) (user_id : UserId) : Except String SocketId :=
  match mapGet s.user_sockets user_id with
  | some sid => .ok sid
  | none => .error (user_id ++ " is not connected")

def get_socket (s : WarhorseServer) (socket_id : SocketId) : Option SocketId :=
  if socket_id ∈ s.sockets then some socket_id else none

def get_logged_in_user_id (s : WarhorseServer) (socket_id : SocketId) : Option UserId :=
  (s.user_sockets.find? (fun p => decide (p.2 = socket_id))).map (·.1)

/-- server.rs `get_friends_list`: the combined relationship list, with the
presence of entries whose stored status is Offline resolved from the socket
map. -/
def get_friends_list (s : WarhorseServer) (user_id : UserId) : List Friend :=
  (DataAccess.friends_get s.db user_id).map
    (fun f =>
      if f.status = .offline then
        { f with status := s.get_online_status f.id }
      else f)

def send_friend_list (s : WarhorseServer) (user_id : UserId) : List Emission :=
  match s.get_socket_id user_id with
  | .ok socket_id =>
    match s.get_socket socket_id with
    | some sock =>
      [{ target := sock, event := EVENT_RECEIVE_FRIENDS,
         payload := .friends (s.get_friends_list user_id) }]
    | none => []
  | .error _ => []

def send_friend_requests (s : WarhorseServer) (user_id : UserId) : List Emission :=
  match s.get_socket_id user_id with
  | .ok socket_id =>
    match s.get_socket socket_id with
    | some sock =>
      [{ target := sock, event := EVENT_RECEIVE_FRIEND_REQUESTS,
         payload := .friendRequests
           (DataAccess.user_get_pending_friend_requests_for_user s.db user_id) }]
    | none => []
  | .error _ => []

def send_post_login_event (s : WarhorseServer) (user_id : UserId) : List Emission :=
  match s.get_socket_id user_id with
  | .ok socket_id =>
    match s.get_socket socket_id with
    | some sock =>
      [{ target := sock, event := EVENT_RECEIVE_USER_LOGIN, payload := .loginAck }]
    | none => []
  | .error _ => []

def send_post_login_data (s : WarhorseServer) (user_id : UserId) : List Emission :=
  s.send_friend_list user_id ++ s.send_friend_requests user_id ++
    s.send_post_login_event user_id

def login_user (s : WarhorseServer) (req : UserLogin) (socket_id : SocketId) :
    CmdOutput :=
  let user_partial :=
    match req.identity with
    | .AccountName account_name => DataAccess.users_get_by_account_name s.db account_name
    | .Email email => DataAccess.users_get_by_email s.db email
  match user_partial with
  | some user =>
    let s1 := { s with user_sockets := mapInsert s.user_sockets user.id socket_id }
    { state := s1, emissions := s1.send_post_login_data user.id, res := .ok () }
  | none => { state := s, emissions := [], res := .error (invalid_login req.language) }

def register_user (s : WarhorseServer) (req : UserRegistration)
    (socket_id : Option SocketId) : CmdOutput :=
  match validate_password req.password req.language with
  | .error e => { state := s, emissions := [], res := .error e }
  | .ok _ =>
  match validate_account_name req.account_name req.language with
  | .error e => { state := s, emissions := [], res := .error e }
  | .ok _ =>
  match validate_display_name req.display_name req.language with
  | .error e => { state := s, emissions := [], res := .error e }
  | .ok _ =>
  if !is_valid_email req.email then
    { state := s, emissions := [], res := .error (invalid_email req.language) }
  else if (DataAccess.users_get_by_account_name s.db req.account_name).isSome then
    { state := s, emissions := [],
      res := .error (account_name_already_exists req.language) }
  else if (DataAccess.users_get_by_email s.db req.email).isSome then
    { state := s, emissions := [], res := .error (email_already_exists req.language) }
  else
    let inserted := DataAccess.users_insert s.db req
    let s1 := { s with db := inserted.2 }
    match socket_id with
    | some sid =>
      let s2 := { s1 with user_sockets := mapInsert s1.user_sockets inserted.1 sid }
      { state := s2, emissions := s2.send_post_login_data inserted.1, res := .ok () }
    | none => { state := s1, emissions := [], res := .ok () }

def are_friends (s : WarhorseServer) (user_id friend_id : UserId) : Bool :=
  (DataAccess.friends_get s.db user_id).any (fun f => decide (f.id = friend_id))

def room_exists (s : WarhorseServer) (room_id : RoomId) : Bool :=
  !s.sockets.isEmpty && decide (room_id = "general")

def user_in_room (s : WarhorseServer) (user_id : UserId) (room_id : RoomId) : Bool :=
  if s.room_exists room_id then
    match s.get_socket_id user_id with
    | .ok socket_id =>
      match s.get_socket socket_id with
      | some _ => decide (room_id = "general")
      | none => false
    | .error _ => false
  else false

def send_chat_message (s : WarhorseServer) (sender_id : UserId)
    (message : SendChatMessage) : CmdOutput :=
  match DataAccess.users_get s.db sender_id with
  | none =>
    { state := s, emissions := [], res := .error (sender_id ++ " does not exist") }
  | some user =>
    let serialized_message : ChatMessage :=
      { display_name := user.display_name
        channel := message.channel
        message := message.message
        time := s.now }
    match message.channel with
    | .PrivateMessage user_id =>
      if s.are_friends sender_id user_id then
        if DataAccess.user_is_blocked s.db sender_id user_id then
          { state := s, emissions := [], res := .error (user_is_blocked message.language) }
        else if DataAccess.user_is_blocked s.db user_id sender_id then
          { state := s, emissions := [], res := .error (user_is_blocked message.language) }
        else
          match s.get_socket_id user_id with
          | .error e => { state := s, emissions := [], res := .error e }
          | .ok socket_id =>
            match s.get_socket socket_id with
            | some sock =>
              { state := s,
                emissions :=
                  [{ target := sock, event := EVENT_RECEIVE_CHAT_MESSAGE,
                     payload := .chat serialized_message }],
                res := .ok () }
            | none =>
              { state := s, emissions := [],
                res := .error (user_id ++ " is not connected") }
      else
        { state := s, emissions := [],
          res := .error (sender_id ++ " is not friends with " ++ user_id ++
            " but is trying to send a private chat message") }
    | .Room room_id =>
      if s.user_in_room sender_id room_id then
        { state := s,
          emissions :=
            s.sockets.map
              (fun sock =>
                { target := sock, event := EVENT_RECEIVE_CHAT_MESSAGE,
                  payload := .chat serialized_message }),
          res := .ok () }
      else
        { state := s, emissions := [],
          res := .error (sender_id ++ " is not in room " ++ room_id) }

def send_friend_request (s : WarhorseServer) (sender_id : UserId)
    (req : FriendRequest) : CmdOutput :=
  if s.are_friends sender_id req.friend_id then
    { state := s, emissions := [], res := .error (already_friends req.language) }
  else if DataAccess.user_is_blocked s.db sender_id req.friend_id then
    { state := s, emissions := [], res := .error (user_is_blocked req.language) }
  else if DataAccess.user_is_blocked s.db req.friend_id sender_id then
    { state := s, emissions := [], res := .error (user_is_blocked req.language) }
  else if DataAccess.user_exists s.db req.friend_id then
    let s1 := { s with db := DataAccess.friend_requests_insert s.db sender_id req.friend_id }
    { state := s1,
      emissions :=
        s1.send_friend_requests req.friend_id ++
          s1.send_friend_list sender_id ++
          s1.send_friend_list req.friend_id,
      res := .ok () }
  else
    { state := s, emissions := [], res := .error (req.friend_id ++ " does not exist") }

def accept_friend_request (s : WarhorseServer) (user_id : UserId)
    (req : AcceptFriendRequest) : CmdOutput :=
  if s.are_friends user_id req.friend_id then
    { state := s, emissions := [], res := .error (already_friends req.language) }
  else if DataAccess.user_is_blocked s.db user_id req.friend_id then
    { state := s, emissions := [], res := .error (user_is_blocked req.language) }
  else if DataAccess.user_is_blocked s.db req.friend_id user_id then
    { state := s, emissions := [], res := .error (user_is_blocked req.language) }
  else
    let s1 := { s with db := DataAccess.friends_add s.db user_id req.friend_id }
    match s1.get_socket_id user_id with
    | .error e => { state := s1, emissions := [], res := .error e }
    | .ok user_socket_id =>
      match s1.get_socket user_socket_id with
      | none => { state := s1, emissions := [], res := .ok () }
      | some sock =>
        match DataAccess.users_get s1.db req.friend_id with
        | none => { state := s1, emissions := [], res := .ok () }
        | some user =>
          let friend : Friend :=
            { id := user.id
              display_name := user.display_name
              status := s1.get_online_status user.id }
          { state := s1,
            emissions :=
              [{ target := sock, event := EVENT_RECEIVE_FRIEND_REQUEST_ACCEPTED,
                 payload := .friendRequestAccepted friend }] ++
                s1.send_friend_list user_id ++
                s1.send_friend_list req.friend_id,
            res := .ok () }

def reject_friend_request (s : WarhorseServer) (user_id : UserId)
    (req : RejectFriendRequest) : CmdOutput :=
  let s1 := { s with db := DataAccess.friend_requests_remove s.db user_id req.friend_id }
  { state := s1,
    emissions := s1.send_friend_list req.friend_id ++ s1.send_friend_list user_id,
    res := .ok () }

def remove_friend (s : WarhorseServer) (user_id : UserId)
    (req : RemoveFriendRequest) : CmdOutput :=
  let s1 := { s with db := DataAccess.friends_remove s.db user_id req.friend_id }
  { state := s1,
    emissions := s1.send_friend_list user_id ++ s1.send_friend_list req.friend_id,
    res := .ok () }

def block_user (s : WarhorseServer) (user_id : UserId)
    (req : BlockUserRequest) : CmdOutput :=
  let db1 := DataAccess.friends_remove s.db user_id req.user_id
  let db2 := DataAccess.user_blocks_insert db1 user_id req.user_id
  let s1 := { s with db := db2 }
  { state := s1,
    emissions := s1.send_friend_list user_id ++ s1.send_friend_list req.user_id,
    res := .ok () }

def unblock_user (s : WarhorseServer) (user_id : UserId)
    (req : UnblockUserRequest) : CmdOutput :=
  let s1 := { s with db := DataAccess.user_blocks_remove s.db user_id req.user_id }
  { state := s1,
    emissions := s1.send_friend_list user_id ++ s1.send_friend_list req.user_id,
    res := .ok () }

end WarhorseServer

/-! ### Event dispatcher (the `listen_for_*` handlers and `handle_connection`
in warhorse_server/src/server.rs) -/

/-- One inbound transport event, tagged with the socket it arrives on. -/
inductive Command where
  | connect (sid : SocketId)
  | disconnect (sid : SocketId)
  | login (sid : SocketId) (req : UserLogin)
  | register (sid : SocketId) (req : UserRegistration)
  | chat (sid : SocketId) (req : SendChatMessage)
  | friendRequest (sid : SocketId) (req : FriendRequest)
  | acceptRequest (sid : SocketId) (req : AcceptFriendRequest)
  | rejectRequest (sid : SocketId) (req : RejectFriendRequest)
  | removeFriend (sid : SocketId) (req : RemoveFriendRequest)
  | blockUser (sid : SocketId) (req : BlockUserRequest)
  | unblockUser (sid : SocketId) (req : UnblockUserRequest)
deriving DecidableEq, Repr

/-- The socket a command arrives on. -/
def Command.sid : Command → SocketId
  | .connect sid => sid
  | .disconnect sid => sid
  | .login sid _ => sid
  | .register sid _ => sid
  | .chat sid _ => sid
  | .friendRequest sid _ => sid
  | .acceptRequest sid _ => sid
  | .rejectRequest sid _ => sid
  | .removeFriend sid _ => sid
  | .blockUser sid _ => sid
  | .unblockUser sid _ => sid

/-- The result of dispatching one inbound event: next state, ordered
emissions, and the business failure of the service call when there was
one (the handlers log it; only login and register also emit it). -/
structure HandleResult where
  state : WarhorseServer
  emissions : List Emission
  failure : Option String

/-- Dispatch one inbound event, mirroring the per-event handlers registered
in `handle_connection`. Events from sockets that are not connected are
dropped (the transport only delivers events of live sessions), as are events
of sessions that are not logged in when the handler requires a user. -/
def handle (s : WarhorseServer) : Command → HandleResult
  | .connect sid =>
    if sid ∈ s.sockets then { state := s, emissions := [], failure := none }
    else
      { state := { s with sockets := s.sockets ++ [sid] },
        emissions :=
          [{ target := sid, event := EVENT_RECEIVE_HELLO,
             payload := .hello (hello_message .english) }],
        failure := none }
  | .disconnect sid =>
    { state := { s with sockets := s.sockets.filter (fun x => !decide (x = sid)) },
      emissions := [], failure := none }
  | .login sid req =>
    if sid ∈ s.sockets then
      let r := s.login_user req sid
      match r.res with
      | .ok _ => { state := r.state, emissions := r.emissions, failure := none }
      | .error e =>
        { state := r.state,
          emissions :=
            r.emissions ++
              [{ target := sid, event := EVENT_RECEIVE_ERROR, payload := .errorMsg e }],
          failure := some e }
    else { state := s, emissions := [], failure := none }
  | .register sid req =>
    if sid ∈ s.sockets then
      let r := s.register_user req (some sid)
      match r.res with
      | .ok _ => { state := r.state, emissions := r.emissions, failure := none }
      | .error e =>
        { state := r.state,
          emissions :=
            r.emissions ++
              [{ target := sid, event := EVENT_RECEIVE_ERROR, payload := .errorMsg e }],
          failure := some e }
    else { state := s, emissions := [], failure := none }
  | .chat sid req =>
    if sid ∈ s.sockets then
      match s.get_logged_in_user_id sid with
      | some user_id =>
        let r := s.send_chat_message user_id req
        { state := r.state, emissions := r.emissions,
          failure := match r.res with | .ok _ => none | .error e => some e }
      | none => { state := s, emissions := [], failure := none }
    else { state := s, emissions := [], failure := none }
  | .friendRequest sid req =>
    if sid ∈ s.sockets then
      match s.get_logged_in_user_id sid with
      | some sender_id =>
        if sender_id = req.friend_id then
          { state := s, emissions := [], failure := none }
        else
          let r := s.send_friend_request sender_id req
          { state := r.state, emissions := r.emissions,
            failure := match r.res with | .ok _ => none | .error e => some e }
      | none => { state := s, emissions := [], failure := none }
    else { state := s, emissions := [], failure := none }
  | .acceptRequest sid req =>
    if sid ∈ s.sockets then
      match s.get_logged_in_user_id sid with
      | some user_id =>
        let r := s.accept_friend_request user_id req
        { state := r.state, emissions := r.emissions,
          failure := match r.res with | .ok _ => none | .error e => some e }
      | none => { state := s, emissions := [], failure := none }
    else { state := s, emissions := [], failure := none }
  | .rejectRequest sid req =>
    if sid ∈ s.sockets then
      match s.get_logged_in_user_id sid with
      | some user_id =>
        let r := s.reject_friend_request user_id req
        { state := r.state, emissions := r.emissions,
          failure := match r.res with | .ok _ => none | .error e => some e }
      | none => { state := s, emissions := [], failure := none }
    else { state := s, emissions := [], failure := none }
  | .removeFriend sid req =>
    if sid ∈ s.sockets then
      match s.get_logged_in_user_id sid with
      | some user_id =>
        let r := s.remove_friend user_id req
        { state := r.state, emissions := r.emissions,
          failure := match r.res with | .ok _ => none | .error e => some e }
      | none => { state := s, emissions := [], failure := none }
    else { state := s, emissions := [], failure := none }
  | .blockUser sid req =>
    if sid ∈ s.sockets then
      match s.get_logged_in_user_id sid with
      | some user_id =>
        let r := s.block_user user_id req
        { state := r.state, emissions := r.emissions,
          failure := match r.res with | .ok _ => none | .error e => some e }
      | none => { state := s, emissions := [], failure := none }
    else { state := s, emissions := [], failure := none }
  | .unblockUser sid req =>
    if sid ∈ s.sockets then
      match s.get_logged_in_user_id sid with
      | some user_id =>
        let r := s.unblock_user user_id req
        { state := r.state, emissions := r.emissions,
          failure := match r.res with | .ok _ => none | .error e => some e }
      | none => { state := s, emissions := [], failure := none }
    else { state := s, emissions := [], failure := none }

/-- The empty freshly started server. -/
def initState : WarhorseServer :=
  { db := InMemoryDatabase.empty, user_sockets := [], sockets := [], now := 0 }

/-- Execute a command sequence from the initial state. -/
def run (cmds : List Command) : WarhorseServer :=
  cmds.foldl (fun s c => (handle s c).state) initState

/-- States reachable by a legal sequence of inbound events. -/
inductive Reachable : WarhorseServer → Prop where
  | init : Reachable initState
  | step (s : WarhorseServer) (c : Command) : Reachable s → Reachable (handle s c).state

/-! ### Derived state predicates used by the claims -/

/-- The raw friend-request targets recorded for a sender in the database. -/
def dbReqList (db : InMemoryDatabase) (user_id : UserId) : List UserId :=
  (mapGet db.friend_requests user_id).getD []

/-- The raw friendship targets recorded for a user in the database. -/
def dbFriends (db : InMemoryDatabase) (user_id : UserId) : List UserId :=
  (mapGet db.friendships user_id).getD []

/-- The raw friend-request targets recorded for a sender. -/
def reqList (s : WarhorseServer) (user_id : UserId) : List UserId :=
  dbReqList s.db user_id

/-- A directed friendship edge in the store. -/
def friendshipEdge (s : WarhorseServer) (a b : UserId) : Bool :=
  decide (b ∈ dbFriends s.db a)

/-- A directed friend-request edge in the store. -/
def requestEdge (s : WarhorseServer) (a b : UserId) : Bool :=
  decide (b ∈ dbReqList s.db a)

/-- A directed block edge in the store. -/
def blockEdge (s : WarhorseServer) (a b : UserId) : Bool :=
  decide ((a, b) ∈ s.db.user_blocks)

/-! ### Characterizing `are_friends` (server.rs checks the combined list) -/

/-- Coherence of the user map: every stored record carries its own key as its
id (an invariant of reachable states, established below). -/
def UsersCoherent (db : InMemoryDatabase) : Prop :=
  ∀ k u, mapGet db.users k = some u → u.id = k

/-! ### Reachable-state invariants of the database -/

/-- The database invariants maintained by every reachable server state. -/
structure DbInv (db : InMemoryDatabase) : Prop where
  ukeys : (mapKeys db.users).Nodup
  rkeys : (mapKeys db.friend_requests).Nodup
  fkeys : (mapKeys db.friendships).Nodup
  coh : UsersCoherent db
  nameUniq : ∀ k1 k2 u1 u2, mapGet db.users k1 = some u1 →
    mapGet db.users k2 = some u2 → u1.account_name = u2.account_name → k1 = k2
  emailUniq : ∀ k1 k2 u1 u2, mapGet db.users k1 = some u1 →
    mapGet db.users k2 = some u2 → u1.email = u2.email → k1 = k2
  reqTgt : ∀ x y, y ∈ dbReqList db x → db.user_exists y = true
  reqNodup : ∀ x, (dbReqList db x).Nodup
  reqSelf : ∀ x, x ∉ dbReqList db x

/-! ### Error-event accounting -/

/-- Whether an emission is an `/error` event payload. -/
def Payload.isErr : Payload → Bool
  | .errorMsg _ => true
  | _ => false

/-- The `/error` emissions among an emission list. -/
def errEmissions (l : List Emission) : List Emission :=
  l.filter (fun e => e.payload.isErr)

/-- Which commands reply to their own failure with an `/error` event: only
login and registration (amended claim C4). -/
def expectedErrors (c : Command) (failure : Option String) : List Emission :=
  match failure with
  | none => []
  | some e =>
    match c with
    | .login sid _ =>
      [{ target := sid, event := EVENT_RECEIVE_ERROR, payload := .errorMsg e }]
    | .register sid _ =>
      [{ target := sid, event := EVENT_RECEIVE_ERROR, payload := .errorMsg e }]
    | _ => []

/-! ### Concrete scenario fixtures -/

def aliceReg : UserRegistration :=
  { language := .english, account_name := "alice", email := "alice@example.com",
    display_name := "Alice", password := "password" }

def bobReg : UserRegistration :=
  { language := .english, account_name := "bob", email := "bob@example.com",
    display_name := "Bobby", password := "password" }

/-- Connect two sockets and register alice (user id "0") and bob (user id "1"). -/
def setupTwoUsers : List Command :=
  [.connect 0, .register 0 aliceReg, .connect 1, .register 1 bobReg]

/-! ### Claim C8 -/

/-- The stored record that registration of `aliceReg` creates (id "0"). -/
def aliceUser : UserPartial :=
  { id := "0"
    display_name_lower := "alice"
    display_name := "Alice"
    account_name_lower := some "alice"
    account_name := some "alice"
    email := some "alice@example.com"
    language := .english }

def aliceUpperReg : UserRegistration :=
  { language := .english, account_name := "Alice", email := "alice2@example.com",
    display_name := "Alice2", password := "password" }

theorem mapGet_append {K V : Type} [DecidableEq K] (m m' : List (K × V)) (k : K) :
    mapGet (m ++ m') k = ((mapGet m k).orElse (fun _ => mapGet m' k)) := by
  induction m with
  | nil => simp [mapGet]
  | cons p m ih =>
    by_cases h : p.1 = k <;> simp [mapGet, h, ih]

theorem mapGet_mapUpdate_self {K V : Type} [DecidableEq K]
    (m : List (K × V)) (k : K) (f : V → V) :
    mapGet (mapUpdate m k f) k = (mapGet m k).map f := by
  induction m with
  | nil => simp [mapGet, mapUpdate]
  | cons p m ih =>
    by_cases h : p.1 = k <;> simp [mapGet, mapUpdate, h, ih]

theorem mapGet_mapUpdate_ne {K V : Type} [DecidableEq K]
    (m : List (K × V)) (k k' : K) (f : V → V) (h : k' ≠ k) :
    mapGet (mapUpdate m k f) k' = mapGet m k' := by
  induction m with
  | nil => rfl
  | cons p m ih =>
    by_cases hp : p.1 = k
    · have hne : ¬p.1 = k' := fun he => h (he ▸ hp)
      have hne' : ¬k = k' := fun he => h he.symm
      simp [mapUpdate, mapGet, hp, hne, hne', ih]
    · simp [mapUpdate, mapGet, hp, ih]

theorem mapGet_eq_none_iff {K V : Type} [DecidableEq K]
    (m : List (K × V)) (k : K) :
    mapGet m k = none ↔ ∀ p ∈ m, p.1 ≠ k := by
  induction m with
  | nil => simp [mapGet]
  | cons p m ih =>
    by_cases h : p.1 = k <;> simp [mapGet, h, ih]

theorem mapGet_map_replace {K V : Type} [DecidableEq K]
    (m : List (K × V)) (k : K) (v : V) (hm : (mapGet m k).isSome) :
    mapGet (m.map (fun p => if p.1 = k then (k, v) else p)) k = some v := by
  induction m with
  | nil => simp [mapGet] at hm
  | cons p m ih =>
    by_cases hp : p.1 = k
    · simp [mapGet, hp]
    · simp [mapGet, hp] at hm
      simp [mapGet, hp, ih hm]

theorem mapGet_map_replace_ne {K V : Type} [DecidableEq K]
    (m : List (K × V)) (k k' : K) (v : V) (h : k' ≠ k) :
    mapGet (m.map (fun p => if p.1 = k then (k, v) else p)) k' = mapGet m k' := by
  induction m with
  | nil => rfl
  | cons p m ih =>
    by_cases hp : p.1 = k
    · have hne : ¬p.1 = k' := fun he => h (he ▸ hp)
      have hne' : ¬k = k' := fun he => h he.symm
      simp [mapGet, hp, hne, hne', ih]
    · simp [mapGet, hp, ih]

theorem mapGet_mapInsert_self {K V : Type} [DecidableEq K]
    (m : List (K × V)) (k : K) (v : V) :
    mapGet (mapInsert m k v) k = some v := by
  unfold mapInsert
  cases hm : mapGet m k with
  | none =>
    rw [mapGet_append, hm]
    simp [mapGet]
  | some w => exact mapGet_map_replace m k v (by rw [hm]; rfl)

theorem mapGet_mapInsert_ne {K V : Type} [DecidableEq K]
    (m : List (K × V)) (k k' : K) (v : V) (h : k' ≠ k) :
    mapGet (mapInsert m k v) k' = mapGet m k' := by
  unfold mapInsert
  cases hm : mapGet m k with
  | none =>
    rw [mapGet_append]
    cases hk' : mapGet m k' with
    | some w => simp
    | none =>
      have : ¬k = k' := fun he => h he.symm
      simp [mapGet, this]
  | some w => exact mapGet_map_replace_ne m k k' v h

theorem mapKeys_mapUpdate {K V : Type} [DecidableEq K]
    (m : List (K × V)) (k : K) (f : V → V) :
    mapKeys (mapUpdate m k f) = mapKeys m := by
  induction m with
  | nil => rfl
  | cons p m ih =>
    by_cases hp : p.1 = k <;> simp [mapUpdate, mapKeys, hp] at * <;> exact ih

theorem mapKeys_map_replace {K V : Type} [DecidableEq K]
    (m : List (K × V)) (k : K) (v : V) :
    mapKeys (m.map (fun p => if p.1 = k then (k, v) else p)) = mapKeys m := by
  induction m with
  | nil => rfl
  | cons p m ih =>
    by_cases hp : p.1 = k <;> simp [mapKeys, hp] at * <;> exact ih

theorem mapKeys_mapInsert_nodup {K V : Type} [DecidableEq K]
    (m : List (K × V)) (k : K) (v : V) (h : (mapKeys m).Nodup) :
    (mapKeys (mapInsert m k v)).Nodup := by
  unfold mapInsert
  cases hm : mapGet m k with
  | none =>
    have hk : k ∉ mapKeys m := by
      intro hmem
      rcases List.mem_map.mp hmem with ⟨p, hp, hpk⟩
      exact ((mapGet_eq_none_iff m k).mp hm p hp) hpk
    have : mapKeys (m ++ [(k, v)]) = mapKeys m ++ [k] := by
      simp [mapKeys]
    rw [this]
    refine List.Nodup.append h (List.nodup_singleton k) ?_
    intro a ha hb
    rcases List.mem_singleton.mp hb with rfl
    exact hk ha
  | some w =>
    rw [mapKeys_map_replace]
    exact h

/-- With unique keys, list membership agrees with lookup. -/
theorem mem_iff_mapGet {K V : Type} [DecidableEq K]
    {m : List (K × V)} (hk : (mapKeys m).Nodup) (k : K) (v : V) :
    (k, v) ∈ m ↔ mapGet m k = some v := by
  induction m with
  | nil => simp [mapGet]
  | cons q m ih =>
    obtain ⟨qk, qv⟩ := q
    have hk' : (mapKeys m).Nodup := (List.nodup_cons.mp (by simpa [mapKeys] using hk)).2
    have hq : qk ∉ mapKeys m := (List.nodup_cons.mp (by simpa [mapKeys] using hk)).1
    by_cases he : qk = k
    · subst he
      simp only [mapGet, if_pos rfl]
      constructor
      · intro hp
        rcases List.mem_cons.mp hp with h | h
        · have h' : v = qv := congrArg Prod.snd h
          simp [h']
        · exact absurd (List.mem_map.mpr ⟨(qk, v), h, rfl⟩) hq
      · intro hp
        simp at hp
        simp [hp]
    · have : ¬(qk, qv).1 = k := he
      simp only [mapGet, if_neg this]
      constructor
      · intro hp
        rcases List.mem_cons.mp hp with h | h
        · exact absurd (congrArg Prod.fst h).symm he
        · exact (ih hk').mp h
      · intro hp
        exact List.mem_cons.mpr (Or.inr ((ih hk').mpr hp))

theorem mem_of_mapGet_eq_some {K V : Type} [DecidableEq K]
    {m : List (K × V)} {k : K} {v : V} (h : mapGet m k = some v) :
    (k, v) ∈ m := by
  induction m with
  | nil => simp [mapGet] at h
  | cons p m ih =>
    obtain ⟨pk, pv⟩ := p
    by_cases hp : pk = k
    · subst hp
      simp [mapGet] at h
      simp [h]
    · have : ¬(pk, pv).1 = k := hp
      simp only [mapGet, if_neg this] at h
      exact List.mem_cons.mpr (Or.inr (ih h))

theorem reachable_foldl (cmds : List Command) (s : WarhorseServer)
    (h : Reachable s) :
    Reachable (cmds.foldl (fun s c => (handle s c).state) s) := by
  induction cmds generalizing s with
  | nil => exact h
  | cons c cmds ih => exact ih _ (Reachable.step s c h)

theorem reachable_run (cmds : List Command) : Reachable (run cmds) :=
  reachable_foldl cmds initState Reachable.init

/-! ### Effect lemmas: store operations on the derived predicates -/

theorem mapKeys_append_nodup {K V : Type} [DecidableEq K]
    (m : List (K × V)) (k : K) (v : V) (hm : mapGet m k = none)
    (h : (mapKeys m).Nodup) : (mapKeys (m ++ [(k, v)])).Nodup := by
  have hk : k ∉ mapKeys m := by
    intro hmem
    rcases List.mem_map.mp hmem with ⟨p, hp, hpk⟩
    exact ((mapGet_eq_none_iff m k).mp hm p hp) hpk
  have he : mapKeys (m ++ [(k, v)]) = mapKeys m ++ [k] := by simp [mapKeys]
  rw [he]
  refine List.Nodup.append h (List.nodup_singleton k) ?_
  intro a ha hb
  rcases List.mem_singleton.mp hb with rfl
  exact hk ha

theorem dbReqList_remove (db : InMemoryDatabase) (u f x : UserId) :
    dbReqList (db.friend_requests_remove u f) x =
      if x = u then (dbReqList db u).filter (fun y => !decide (y = f))
      else dbReqList db x := by
  unfold dbReqList InMemoryDatabase.friend_requests_remove
  by_cases hx : x = u
  · subst hx
    rw [mapGet_mapUpdate_self]
    cases mapGet db.friend_requests x <;> simp
  · rw [mapGet_mapUpdate_ne _ _ _ _ hx]
    simp [hx]

theorem dbReqList_insert (db : InMemoryDatabase) (u f x : UserId) :
    dbReqList (db.friend_requests_insert u f) x =
      if x = u then dbReqList db u ++ [f] else dbReqList db x := by
  unfold dbReqList InMemoryDatabase.friend_requests_insert
  cases hm : mapGet db.friend_requests u with
  | some l =>
    simp only [hm]
    by_cases hx : x = u
    · subst hx
      rw [mapGet_mapUpdate_self, hm]
      simp [hm]
    · rw [mapGet_mapUpdate_ne _ _ _ _ hx]
      simp [hx]
  | none =>
    simp only [hm]
    by_cases hx : x = u
    · subst hx
      rw [mapGet_append, hm]
      simp [mapGet]
    · rw [mapGet_append]
      have hux : ¬u = x := fun h => hx h.symm
      cases hg : mapGet db.friend_requests x with
      | some l => simp [hx]
      | none => simp [mapGet, hx, hux]

theorem dbFriends_remove (db : InMemoryDatabase) (u f x : UserId) :
    dbFriends (db.friends_remove u f) x =
      if x = u then (dbFriends db u).filter (fun y => !decide (y = f))
      else dbFriends db x := by
  unfold dbFriends InMemoryDatabase.friends_remove
  by_cases hx : x = u
  · subst hx
    rw [mapGet_mapUpdate_self]
    cases mapGet db.friendships x <;> simp
  · rw [mapGet_mapUpdate_ne _ _ _ _ hx]
    simp [hx]

theorem dbFriends_add (db : InMemoryDatabase) (u f x : UserId) :
    dbFriends (db.friends_add u f) x =
      if x = u then dbFriends db u ++ [f] else dbFriends db x := by
  unfold dbFriends InMemoryDatabase.friends_add
  cases hm : mapGet db.friendships u with
  | some l =>
    simp only [hm]
    by_cases hx : x = u
    · subst hx
      rw [mapGet_mapUpdate_self, hm]
      simp [hm]
    · rw [mapGet_mapUpdate_ne _ _ _ _ hx]
      simp [hx]
  | none =>
    simp only [hm]
    by_cases hx : x = u
    · subst hx
      rw [mapGet_append, hm]
      simp [mapGet]
    · rw [mapGet_append]
      have hux : ¬u = x := fun h => hx h.symm
      cases hg : mapGet db.friendships x with
      | some l => simp [hx]
      | none => simp [mapGet, hx, hux]

/-! Frame facts: which fields each operation leaves unchanged. -/

theorem friend_requests_insert_users (db : InMemoryDatabase) (u f : UserId) :
    (db.friend_requests_insert u f).users = db.users := by
  unfold InMemoryDatabase.friend_requests_insert
  cases mapGet db.friend_requests u <;> rfl

theorem friend_requests_insert_friendships (db : InMemoryDatabase) (u f : UserId) :
    (db.friend_requests_insert u f).friendships = db.friendships := by
  unfold InMemoryDatabase.friend_requests_insert
  cases mapGet db.friend_requests u <;> rfl

theorem friend_requests_insert_blocks (db : InMemoryDatabase) (u f : UserId) :
    (db.friend_requests_insert u f).user_blocks = db.user_blocks := by
  unfold InMemoryDatabase.friend_requests_insert
  cases mapGet db.friend_requests u <;> rfl

theorem friends_add_users (db : InMemoryDatabase) (u f : UserId) :
    (db.friends_add u f).users = db.users := by
  unfold InMemoryDatabase.friends_add
  cases mapGet db.friendships u <;> rfl

theorem friends_add_friend_requests (db : InMemoryDatabase) (u f : UserId) :
    (db.friends_add u f).friend_requests = db.friend_requests := by
  unfold InMemoryDatabase.friends_add
  cases mapGet db.friendships u <;> rfl

theorem friends_add_blocks (db : InMemoryDatabase) (u f : UserId) :
    (db.friends_add u f).user_blocks = db.user_blocks := by
  unfold InMemoryDatabase.friends_add
  cases mapGet db.friendships u <;> rfl

theorem user_is_blocked_iff (db : InMemoryDatabase) (u b : UserId) :
    db.user_is_blocked u b = true ↔ (u, b) ∈ db.user_blocks := by
  unfold InMemoryDatabase.user_is_blocked
  rw [List.any_eq_true]
  constructor
  · rintro ⟨⟨p1, p2⟩, hp, he⟩
    simp at he
    rcases he with ⟨rfl, rfl⟩
    exact hp
  · intro hp
    exact ⟨(u, b), hp, by simp⟩

/-! Effects through the data access layer. -/

theorem dbFriends_da_friends_remove (db : InMemoryDatabase) (u f x : UserId) :
    dbFriends (DataAccess.friends_remove db u f) x =
      if x = u then (dbFriends db u).filter (fun y => !decide (y = f))
      else dbFriends db x := by
  have h1 : dbFriends (DataAccess.friends_remove db u f) x =
      dbFriends (db.friends_remove u f) x := rfl
  rw [h1, dbFriends_remove]

theorem dbReqList_da_friends_remove (db : InMemoryDatabase) (u f x : UserId) :
    dbReqList (DataAccess.friends_remove db u f) x =
      if x = u then (dbReqList db u).filter (fun y => !decide (y = f))
      else dbReqList db x := by
  have h1 : dbReqList (DataAccess.friends_remove db u f) x =
      dbReqList ((db.friends_remove u f).friend_requests_remove u f) x := rfl
  have h2 : dbReqList (db.friends_remove u f) x = dbReqList db x := rfl
  rw [h1, dbReqList_remove]
  by_cases hx : x = u <;> simp [hx, h2]
  · have h3 : dbReqList (db.friends_remove u f) u = dbReqList db u := rfl
    rw [h3]

theorem da_friends_remove_users (db : InMemoryDatabase) (u f : UserId) :
    (DataAccess.friends_remove db u f).users = db.users := rfl

theorem da_friends_remove_blocks (db : InMemoryDatabase) (u f : UserId) :
    (DataAccess.friends_remove db u f).user_blocks = db.user_blocks := rfl

theorem mem_dbFriends_da_user_blocks_insert (db : InMemoryDatabase)
    (u b x y : UserId) :
    y ∈ dbFriends (DataAccess.user_blocks_insert db u b) x ↔
      (y ∈ dbFriends db x ∧ ¬(x = u ∧ y = b) ∧ ¬(x = b ∧ y = u)) := by
  have hb1 : ∀ z, dbFriends (db.user_blocks_insert u b) z = dbFriends db z :=
    fun z => rfl
  have hreq : ∀ (d : InMemoryDatabase) (a c z : UserId),
      dbFriends (DataAccess.friend_requests_remove d a c) z = dbFriends d z :=
    fun d a c z => rfl
  have hmem : ∀ (d : InMemoryDatabase) (a c z w : UserId),
      w ∈ dbFriends (DataAccess.friends_remove d a c) z ↔
        (w ∈ dbFriends d z ∧ ¬(z = a ∧ w = c)) := by
    intro d a c z w
    rw [dbFriends_da_friends_remove]
    by_cases hz : z = a
    · simp [hz, List.mem_filter]
    · simp [hz]
  unfold DataAccess.user_blocks_insert
  rw [hreq, hreq, hmem, hmem]
  simp only [hb1]
  tauto

theorem mem_dbReqList_da_user_blocks_insert (db : InMemoryDatabase)
    (u b x y : UserId) :
    y ∈ dbReqList (DataAccess.user_blocks_insert db u b) x ↔
      (y ∈ dbReqList db x ∧ ¬(x = u ∧ y = b) ∧ ¬(x = b ∧ y = u)) := by
  have hb1 : ∀ z, dbReqList (db.user_blocks_insert u b) z = dbReqList db z :=
    fun z => rfl
  have hmemF : ∀ (d : InMemoryDatabase) (a c z w : UserId),
      w ∈ dbReqList (DataAccess.friends_remove d a c) z ↔
        (w ∈ dbReqList d z ∧ ¬(z = a ∧ w = c)) := by
    intro d a c z w
    rw [dbReqList_da_friends_remove]
    by_cases hz : z = a
    · simp [hz, List.mem_filter]
    · simp [hz]
  have hmemR : ∀ (d : InMemoryDatabase) (a c z w : UserId),
      w ∈ dbReqList (DataAccess.friend_requests_remove d a c) z ↔
        (w ∈ dbReqList d z ∧ ¬(z = a ∧ w = c)) := by
    intro d a c z w
    show w ∈ dbReqList (d.friend_requests_remove a c) z ↔ _
    rw [dbReqList_remove]
    by_cases hz : z = a
    · simp [hz, List.mem_filter]
    · simp [hz]
  unfold DataAccess.user_blocks_insert
  rw [hmemR, hmemR, hmemF, hmemF]
  simp only [hb1]
  tauto

theorem mem_blocks_da_user_blocks_insert (db : InMemoryDatabase)
    (u b : UserId) (p : UserId × UserId) :
    p ∈ (DataAccess.user_blocks_insert db u b).user_blocks ↔
      (p ∈ db.user_blocks ∨ p = (u, b)) := by
  unfold DataAccess.user_blocks_insert
  have h1 : ∀ (d : InMemoryDatabase) (a c : UserId),
      (DataAccess.friend_requests_remove d a c).user_blocks = d.user_blocks :=
    fun d a c => rfl
  have h2 : ∀ (d : InMemoryDatabase) (a c : UserId),
      (DataAccess.friends_remove d a c).user_blocks = d.user_blocks :=
    fun d a c => rfl
  rw [h1, h1, h2, h2]
  unfold InMemoryDatabase.user_blocks_insert
  simp

theorem da_user_blocks_insert_users (db : InMemoryDatabase) (u b : UserId) :
    (DataAccess.user_blocks_insert db u b).users = db.users := rfl

theorem are_friends_of_invite (s : WarhorseServer) (a b : UserId) (w : UserPartial)
    (hw : s.db.users_get b = some w) (hid : w.id = b)
    (hreq : b ∈ dbReqList s.db a) :
    s.are_friends a b = true := by
  have hl : ∃ l, mapGet s.db.friend_requests a = some l ∧ b ∈ l := by
    unfold dbReqList at hreq
    cases hm : mapGet s.db.friend_requests a with
    | none => rw [hm] at hreq; simp at hreq
    | some l => rw [hm] at hreq; exact ⟨l, rfl, hreq⟩
  rcases hl with ⟨l, hml, hbl⟩
  unfold WarhorseServer.are_friends DataAccess.friends_get
  rw [List.any_eq_true]
  refine ⟨{ id := w.id, display_name := w.display_name,
            status := .friendRequestSent }, ?_, by simp [hid]⟩
  simp only [List.mem_append]
  refine Or.inl (Or.inr ?_)
  unfold InMemoryDatabase.user_get_friend_request_invites_sent_for_user
  rw [List.mem_flatMap]
  refine ⟨l, ?_, ?_⟩
  · rw [List.mem_filterMap]
    exact ⟨(a, l), mem_of_mapGet_eq_some hml, by simp⟩
  · rw [List.mem_map]
    refine ⟨w, ?_, rfl⟩
    rw [List.mem_filterMap]
    exact ⟨b, hbl, hw⟩

theorem are_friends_of_pending (s : WarhorseServer) (a b : UserId) (w : UserPartial)
    (hw : s.db.users_get b = some w) (hid : w.id = b)
    (hreq : a ∈ dbReqList s.db b) :
    s.are_friends a b = true := by
  have hl : ∃ l, mapGet s.db.friend_requests b = some l ∧ a ∈ l := by
    unfold dbReqList at hreq
    cases hm : mapGet s.db.friend_requests b with
    | none => rw [hm] at hreq; simp at hreq
    | some l => rw [hm] at hreq; exact ⟨l, rfl, hreq⟩
  rcases hl with ⟨l, hml, hal⟩
  unfold WarhorseServer.are_friends DataAccess.friends_get
  rw [List.any_eq_true]
  refine ⟨{ id := w.id, display_name := w.display_name,
            status := .friendRequestReceived }, ?_, by simp [hid]⟩
  simp only [List.mem_append]
  refine Or.inl (Or.inl (Or.inr ?_))
  unfold InMemoryDatabase.user_get_pending_friend_requests_for_user
  rw [List.mem_map]
  refine ⟨w, ?_, rfl⟩
  rw [List.mem_filterMap]
  exact ⟨(b, l), mem_of_mapGet_eq_some hml, by simp [hal, hw]⟩

theorem are_friends_cases (s : WarhorseServer) (a b : UserId)
    (hcoh : UsersCoherent s.db)
    (hrk : (mapKeys s.db.friend_requests).Nodup)
    (h : s.are_friends a b = true) :
    b ∈ dbFriends s.db a ∨ a ∈ dbReqList s.db b ∨ b ∈ dbReqList s.db a ∨
      (a, b) ∈ s.db.user_blocks := by
  unfold WarhorseServer.are_friends DataAccess.friends_get at h
  rw [List.any_eq_true] at h
  rcases h with ⟨f, hf, hfb⟩
  have hfb' : f.id = b := by simpa using hfb
  simp only [List.mem_append] at hf
  rcases hf with ((hf | hf) | hf) | hf
  · left
    unfold InMemoryDatabase.friends_get at hf
    rw [List.mem_filterMap] at hf
    rcases hf with ⟨y, hy, hym⟩
    rcases Option.map_eq_some'.mp hym with ⟨w, hw, hfw⟩
    have hwy : w.id = y := hcoh y w hw
    have hwid : f.id = w.id := by rw [← hfw]
    have hyb : y = b := by rw [← hwy, ← hwid, hfb']
    unfold dbFriends
    rw [← hyb]
    exact hy
  · right; left
    unfold InMemoryDatabase.user_get_pending_friend_requests_for_user at hf
    rw [List.mem_map] at hf
    rcases hf with ⟨w, hw, hwf⟩
    rw [List.mem_filterMap] at hw
    rcases hw with ⟨p, hp, hpw⟩
    by_cases hap : a ∈ p.2
    · rw [if_pos hap] at hpw
      have hwp : w.id = p.1 := hcoh p.1 w hpw
      have hwid : f.id = w.id := by rw [← hwf]
      have hpb : p.1 = b := by rw [← hwp, ← hwid, hfb']
      have hget : mapGet s.db.friend_requests p.1 = some p.2 :=
        (mem_iff_mapGet hrk p.1 p.2).mp (by
          have : p = (p.1, p.2) := rfl
          rw [← this]; exact hp)
      unfold dbReqList
      rw [← hpb, hget]
      exact hap
    · rw [if_neg hap] at hpw
      exact absurd hpw (by simp)
  · right; right; left
    unfold InMemoryDatabase.user_get_friend_request_invites_sent_for_user at hf
    rw [List.mem_flatMap] at hf
    rcases hf with ⟨l, hl, hfl⟩
    rw [List.mem_filterMap] at hl
    rcases hl with ⟨p, hp, hpl⟩
    by_cases hpa : p.1 = a
    · rw [if_pos hpa] at hpl
      have hpl' : p.2 = l := by simpa using hpl
      rw [List.mem_map] at hfl
      rcases hfl with ⟨w, hwl, hwf⟩
      rw [List.mem_filterMap] at hwl
      rcases hwl with ⟨y, hyl, hyw⟩
      have hwy : w.id = y := hcoh y w hyw
      have hwid : f.id = w.id := by rw [← hwf]
      have hyb : y = b := by rw [← hwy, ← hwid, hfb']
      have hget : mapGet s.db.friend_requests a = some l := by
        rw [← hpa, ← hpl']
        exact (mem_iff_mapGet hrk p.1 p.2).mp (by
          have : p = (p.1, p.2) := rfl
          rw [← this]; exact hp)
      unfold dbReqList
      rw [hget]
      rw [← hyb]
      exact hyl
    · rw [if_neg hpa] at hpl
      exact absurd hpl (by simp)
  · right; right; right
    unfold InMemoryDatabase.user_blocks_get_blocks_for_user at hf
    rw [List.mem_map] at hf
    rcases hf with ⟨w, hw, hwf⟩
    rw [List.mem_filterMap] at hw
    rcases hw with ⟨p, hp, hpw⟩
    by_cases hpa : p.1 = a
    · rw [if_pos hpa] at hpw
      have hwp : w.id = p.2 := hcoh p.2 w hpw
      have hwid : f.id = w.id := by rw [← hwf]
      have hpb : p.2 = b := by rw [← hwp, ← hwid, hfb']
      have : p = (a, b) := by
        have : p = (p.1, p.2) := rfl
        rw [this, hpa, hpb]
      rw [← this]
      exact hp
    · rw [if_neg hpa] at hpw
      exact absurd hpw (by simp)

theorem are_friends_eq_false (s : WarhorseServer) (a b : UserId)
    (hcoh : UsersCoherent s.db)
    (hrk : (mapKeys s.db.friend_requests).Nodup)
    (h1 : b ∉ dbFriends s.db a) (h2 : a ∉ dbReqList s.db b)
    (h3 : b ∉ dbReqList s.db a) (h4 : (a, b) ∉ s.db.user_blocks) :
    s.are_friends a b = false := by
  cases hb : s.are_friends a b with
  | false => rfl
  | true =>
    rcases are_friends_cases s a b hcoh hrk hb with h | h | h | h
    · exact absurd h h1
    · exact absurd h h2
    · exact absurd h h3
    · exact absurd h h4

theorem DbInv_empty : DbInv InMemoryDatabase.empty := by
  refine ⟨?_, ?_, ?_, ?_, ?_, ?_, ?_, ?_, ?_⟩ <;>
    simp [InMemoryDatabase.empty, mapKeys, UsersCoherent, mapGet, dbReqList,
      InMemoryDatabase.user_exists]

theorem find_by_name_none_iff (db : InMemoryDatabase) (n : String) :
    db.users_get_by_account_name n = none ↔
      ∀ p ∈ db.users, p.2.account_name ≠ some n := by
  unfold InMemoryDatabase.users_get_by_account_name
  rw [Option.map_eq_none']
  rw [List.find?_eq_none]
  simp

theorem find_by_email_none_iff (db : InMemoryDatabase) (n : String) :
    db.users_get_by_email n = none ↔ ∀ p ∈ db.users, p.2.email ≠ some n := by
  unfold InMemoryDatabase.users_get_by_email
  rw [Option.map_eq_none']
  rw [List.find?_eq_none]
  simp

theorem DbInv_users_insert (db : InMemoryDatabase) (req : UserRegistration)
    (h : DbInv db)
    (hname : db.users_get_by_account_name req.account_name = none)
    (hemail : db.users_get_by_email req.email = none) :
    DbInv (db.users_insert req).2 := by
  have hname' := (find_by_name_none_iff db req.account_name).mp hname
  have hemail' := (find_by_email_none_iff db req.email).mp hemail
  set nid := toString db.next_user_id with hnid
  have husers : (db.users_insert req).2.users =
      mapInsert db.users nid
        { id := nid
          language := req.language
          display_name_lower := lowercase req.display_name
          display_name := req.display_name
          account_name_lower := some (lowercase req.account_name)
          account_name := some req.account_name
          email := some req.email } := rfl
  have hfr : (db.users_insert req).2.friend_requests = db.friend_requests := rfl
  have hfs : (db.users_insert req).2.friendships = db.friendships := rfl
  have hget : ∀ k, mapGet (db.users_insert req).2.users k =
      if k = nid then
        some { id := nid
               language := req.language
               display_name_lower := lowercase req.display_name
               display_name := req.display_name
               account_name_lower := some (lowercase req.account_name)
               account_name := some req.account_name
               email := some req.email }
      else mapGet db.users k := by
    intro k
    rw [husers]
    by_cases hk : k = nid
    · subst hk
      rw [mapGet_mapInsert_self]
      simp
    · rw [mapGet_mapInsert_ne _ _ _ _ hk]
      simp [hk]
  refine ⟨?_, ?_, ?_, ?_, ?_, ?_, ?_, ?_, ?_⟩
  · rw [husers]
    exact mapKeys_mapInsert_nodup _ _ _ h.ukeys
  · rw [hfr]; exact h.rkeys
  · rw [hfs]; exact h.fkeys
  · intro k u hk
    rw [hget] at hk
    by_cases hkn : k = nid
    · rw [if_pos hkn] at hk
      cases hk
      exact hkn.symm
    · rw [if_neg hkn] at hk
      exact h.coh k u hk
  · intro k1 k2 u1 u2 h1 h2 he
    rw [hget] at h1 h2
    by_cases hk1 : k1 = nid <;> by_cases hk2 : k2 = nid
    · rw [hk1, hk2]
    · rw [if_pos hk1] at h1
      rw [if_neg hk2] at h2
      cases h1
      exact absurd he.symm (hname' (k2, u2) (mem_of_mapGet_eq_some h2))
    · rw [if_neg hk1] at h1
      rw [if_pos hk2] at h2
      cases h2
      exact absurd he (hname' (k1, u1) (mem_of_mapGet_eq_some h1))
    · rw [if_neg hk1] at h1
      rw [if_neg hk2] at h2
      exact h.nameUniq k1 k2 u1 u2 h1 h2 he
  · intro k1 k2 u1 u2 h1 h2 he
    rw [hget] at h1 h2
    by_cases hk1 : k1 = nid <;> by_cases hk2 : k2 = nid
    · rw [hk1, hk2]
    · rw [if_pos hk1] at h1
      rw [if_neg hk2] at h2
      cases h1
      exact absurd he.symm (hemail' (k2, u2) (mem_of_mapGet_eq_some h2))
    · rw [if_neg hk1] at h1
      rw [if_pos hk2] at h2
      cases h2
      exact absurd he (hemail' (k1, u1) (mem_of_mapGet_eq_some h1))
    · rw [if_neg hk1] at h1
      rw [if_neg hk2] at h2
      exact h.emailUniq k1 k2 u1 u2 h1 h2 he
  · intro x y hy
    have hy' : y ∈ dbReqList db x := by
      unfold dbReqList at hy ⊢
      rw [hfr] at hy
      exact hy
    have := h.reqTgt x y hy'
    unfold InMemoryDatabase.user_exists at this ⊢
    rw [hget]
    by_cases hyn : y = nid
    · rw [if_pos hyn]; rfl
    · rw [if_neg hyn]; exact this
  · intro x
    have : dbReqList (db.users_insert req).2 x = dbReqList db x := by
      unfold dbReqList
      rw [hfr]
    rw [this]
    exact h.reqNodup x
  · intro x
    have : dbReqList (db.users_insert req).2 x = dbReqList db x := by
      unfold dbReqList
      rw [hfr]
    rw [this]
    exact h.reqSelf x

theorem rkeys_friend_requests_insert (db : InMemoryDatabase) (a b : UserId)
    (h : (mapKeys db.friend_requests).Nodup) :
    (mapKeys (db.friend_requests_insert a b).friend_requests).Nodup := by
  unfold InMemoryDatabase.friend_requests_insert
  cases hm : mapGet db.friend_requests a with
  | some l =>
    simp only [hm]
    rw [mapKeys_mapUpdate]
    exact h
  | none =>
    simp only [hm]
    exact mapKeys_append_nodup _ _ _ hm h

theorem fkeys_friends_add (db : InMemoryDatabase) (a b : UserId)
    (h : (mapKeys db.friendships).Nodup) :
    (mapKeys (db.friends_add a b).friendships).Nodup := by
  unfold InMemoryDatabase.friends_add
  cases hm : mapGet db.friendships a with
  | some l =>
    simp only [hm]
    rw [mapKeys_mapUpdate]
    exact h
  | none =>
    simp only [hm]
    exact mapKeys_append_nodup _ _ _ hm h

theorem DbInv_friend_requests_insert (db : InMemoryDatabase) (a b : UserId)
    (h : DbInv db) (hab : a ≠ b) (hnew : b ∉ dbReqList db a)
    (hex : db.user_exists b = true) :
    DbInv (db.friend_requests_insert a b) := by
  have husers := friend_requests_insert_users db a b
  have hfs := friend_requests_insert_friendships db a b
  have huex : ∀ y, (db.friend_requests_insert a b).user_exists y = db.user_exists y := by
    intro y
    unfold InMemoryDatabase.user_exists
    rw [husers]
  refine ⟨?_, rkeys_friend_requests_insert db a b h.rkeys, ?_, ?_, ?_, ?_, ?_, ?_, ?_⟩
  · rw [husers]; exact h.ukeys
  · rw [hfs]; exact h.fkeys
  · intro k u hk
    rw [husers] at hk
    exact h.coh k u hk
  · intro k1 k2 u1 u2 h1 h2 he
    rw [husers] at h1 h2
    exact h.nameUniq k1 k2 u1 u2 h1 h2 he
  · intro k1 k2 u1 u2 h1 h2 he
    rw [husers] at h1 h2
    exact h.emailUniq k1 k2 u1 u2 h1 h2 he
  · intro x y hy
    rw [dbReqList_insert] at hy
    rw [huex]
    by_cases hx : x = a
    · rw [if_pos hx] at hy
      rcases List.mem_append.mp hy with hy | hy
      · exact h.reqTgt a y hy
      · rcases List.mem_singleton.mp hy with rfl
        exact hex
    · rw [if_neg hx] at hy
      exact h.reqTgt x y hy
  · intro x
    rw [dbReqList_insert]
    by_cases hx : x = a
    · rw [if_pos hx]
      subst hx
      simp [List.nodup_append, h.reqNodup x]
      intro hb
      exact hnew hb
    · rw [if_neg hx]
      exact h.reqNodup x
  · intro x
    rw [dbReqList_insert]
    by_cases hx : x = a
    · rw [if_pos hx]
      subst hx
      simp
      exact ⟨h.reqSelf x, hab⟩
    · rw [if_neg hx]
      exact h.reqSelf x

theorem DbInv_friend_requests_remove (db : InMemoryDatabase) (a b : UserId)
    (h : DbInv db) : DbInv (db.friend_requests_remove a b) := by
  have husers : (db.friend_requests_remove a b).users = db.users := rfl
  have hfs : (db.friend_requests_remove a b).friendships = db.friendships := rfl
  have hrk : (mapKeys (db.friend_requests_remove a b).friend_requests).Nodup := by
    unfold InMemoryDatabase.friend_requests_remove
    rw [mapKeys_mapUpdate]
    exact h.rkeys
  refine ⟨h.ukeys, hrk, h.fkeys, h.coh, h.nameUniq, h.emailUniq, ?_, ?_, ?_⟩
  · intro x y hy
    rw [dbReqList_remove] at hy
    have huex : (db.friend_requests_remove a b).user_exists y = db.user_exists y := rfl
    rw [huex]
    by_cases hx : x = a
    · rw [if_pos hx] at hy
      exact h.reqTgt a y (List.mem_of_mem_filter hy)
    · rw [if_neg hx] at hy
      exact h.reqTgt x y hy
  · intro x
    rw [dbReqList_remove]
    by_cases hx : x = a
    · rw [if_pos hx]
      exact (h.reqNodup a).filter _
    · rw [if_neg hx]
      exact h.reqNodup x
  · intro x
    rw [dbReqList_remove]
    by_cases hx : x = a
    · rw [if_pos hx]
      subst hx
      intro hmem
      exact h.reqSelf x (List.mem_of_mem_filter hmem)
    · rw [if_neg hx]
      exact h.reqSelf x

theorem DbInv_friends_add (db : InMemoryDatabase) (a b : UserId)
    (h : DbInv db) : DbInv (db.friends_add a b) := by
  have husers := friends_add_users db a b
  have hfr := friends_add_friend_requests db a b
  have hreq : ∀ x, dbReqList (db.friends_add a b) x = dbReqList db x := by
    intro x
    unfold dbReqList
    rw [hfr]
  refine ⟨?_, ?_, fkeys_friends_add db a b h.fkeys, ?_, ?_, ?_, ?_, ?_, ?_⟩
  · rw [husers]; exact h.ukeys
  · rw [hfr]; exact h.rkeys
  · intro k u hk
    rw [husers] at hk
    exact h.coh k u hk
  · intro k1 k2 u1 u2 h1 h2 he
    rw [husers] at h1 h2
    exact h.nameUniq k1 k2 u1 u2 h1 h2 he
  · intro k1 k2 u1 u2 h1 h2 he
    rw [husers] at h1 h2
    exact h.emailUniq k1 k2 u1 u2 h1 h2 he
  · intro x y hy
    rw [hreq] at hy
    have huex : (db.friends_add a b).user_exists y = db.user_exists y := by
      unfold InMemoryDatabase.user_exists
      rw [husers]
    rw [huex]
    exact h.reqTgt x y hy
  · intro x
    rw [hreq]
    exact h.reqNodup x
  · intro x
    rw [hreq]
    exact h.reqSelf x

theorem DbInv_friends_remove (db : InMemoryDatabase) (a b : UserId)
    (h : DbInv db) : DbInv (db.friends_remove a b) := by
  have hfk : (mapKeys (db.friends_remove a b).friendships).Nodup := by
    unfold InMemoryDatabase.friends_remove
    rw [mapKeys_mapUpdate]
    exact h.fkeys
  exact ⟨h.ukeys, h.rkeys, hfk, h.coh, h.nameUniq, h.emailUniq, h.reqTgt,
    h.reqNodup, h.reqSelf⟩

theorem DbInv_blocks_insert (db : InMemoryDatabase) (a b : UserId)
    (h : DbInv db) : DbInv (db.user_blocks_insert a b) :=
  ⟨h.ukeys, h.rkeys, h.fkeys, h.coh, h.nameUniq, h.emailUniq, h.reqTgt,
    h.reqNodup, h.reqSelf⟩

theorem DbInv_blocks_remove (db : InMemoryDatabase) (a b : UserId)
    (h : DbInv db) : DbInv (db.user_blocks_remove a b) :=
  ⟨h.ukeys, h.rkeys, h.fkeys, h.coh, h.nameUniq, h.emailUniq, h.reqTgt,
    h.reqNodup, h.reqSelf⟩

theorem DbInv_da_friends_remove (db : InMemoryDatabase) (a b : UserId)
    (h : DbInv db) : DbInv (DataAccess.friends_remove db a b) :=
  DbInv_friend_requests_remove _ a b (DbInv_friends_remove db a b h)

theorem DbInv_da_user_blocks_insert (db : InMemoryDatabase) (a b : UserId)
    (h : DbInv db) : DbInv (DataAccess.user_blocks_insert db a b) := by
  unfold DataAccess.user_blocks_insert DataAccess.friend_requests_remove
  exact DbInv_friend_requests_remove _ a b
    (DbInv_friend_requests_remove _ a b
      (DbInv_da_friends_remove _ b a
        (DbInv_da_friends_remove _ a b (DbInv_blocks_insert db a b h))))

/-! ### Service-level state lemmas -/

theorem login_user_db (s : WarhorseServer) (req : UserLogin) (sid : SocketId) :
    (s.login_user req sid).state.db = s.db := by
  unfold WarhorseServer.login_user
  cases req.identity with
  | AccountName n =>
    cases hm : DataAccess.users_get_by_account_name s.db n <;> simp [hm]
  | Email e =>
    cases hm : DataAccess.users_get_by_email s.db e <;> simp [hm]

theorem send_chat_message_state (s : WarhorseServer) (sender_id : UserId)
    (message : SendChatMessage) :
    (s.send_chat_message sender_id message).state = s := by
  unfold WarhorseServer.send_chat_message
  cases DataAccess.users_get s.db sender_id with
  | none => rfl
  | some user =>
    cases message.channel with
    | PrivateMessage user_id =>
      by_cases h1 : s.are_friends sender_id user_id
      · simp only [h1]
        by_cases h2 : DataAccess.user_is_blocked s.db sender_id user_id
        · simp [h2]
        · simp only [h2]
          by_cases h3 : DataAccess.user_is_blocked s.db user_id sender_id
          · simp [h3]
          · simp only [h3]
            cases hg : s.get_socket_id user_id with
            | error e => simp [hg]
            | ok socket_id =>
              cases hs : s.get_socket socket_id <;> simp [hg, hs]
      · simp [h1]
    | Room room_id =>
      by_cases h1 : s.user_in_room sender_id room_id
      · simp [h1]
      · simp [h1]

theorem reject_friend_request_state (s : WarhorseServer) (user_id : UserId)
    (req : RejectFriendRequest) :
    (s.reject_friend_request user_id req).state =
      { s with db := DataAccess.friend_requests_remove s.db user_id req.friend_id } := rfl

theorem remove_friend_state (s : WarhorseServer) (user_id : UserId)
    (req : RemoveFriendRequest) :
    (s.remove_friend user_id req).state =
      { s with db := DataAccess.friends_remove s.db user_id req.friend_id } := rfl

theorem block_user_state (s : WarhorseServer) (user_id : UserId)
    (req : BlockUserRequest) :
    (s.block_user user_id req).state =
      { s with
          db := DataAccess.user_blocks_insert
            (DataAccess.friends_remove s.db user_id req.user_id)
            user_id req.user_id } := rfl

theorem unblock_user_state (s : WarhorseServer) (user_id : UserId)
    (req : UnblockUserRequest) :
    (s.unblock_user user_id req).state =
      { s with db := DataAccess.user_blocks_remove s.db user_id req.user_id } := rfl

theorem accept_friend_request_state (s : WarhorseServer) (user_id : UserId)
    (req : AcceptFriendRequest)
    (h1 : s.are_friends user_id req.friend_id = false)
    (h2 : DataAccess.user_is_blocked s.db user_id req.friend_id = false)
    (h3 : DataAccess.user_is_blocked s.db req.friend_id user_id = false) :
    (s.accept_friend_request user_id req).state =
      { s with db := DataAccess.friends_add s.db user_id req.friend_id } := by
  unfold WarhorseServer.accept_friend_request
  simp only [h1, h2, h3, Bool.false_eq_true, if_false]
  set s1 : WarhorseServer :=
    { s with db := DataAccess.friends_add s.db user_id req.friend_id } with hs1
  cases hg : s1.get_socket_id user_id with
  | error e => simp [hg]
  | ok user_socket_id =>
    cases hs : s1.get_socket user_socket_id with
    | none => simp [hg, hs]
    | some sock =>
      cases hu : DataAccess.users_get s1.db req.friend_id <;> simp [hg, hs, hu]

theorem accept_friend_request_state_cases (s : WarhorseServer) (user_id : UserId)
    (req : AcceptFriendRequest) :
    (s.accept_friend_request user_id req).state = s ∨
      (s.accept_friend_request user_id req).state =
        { s with db := DataAccess.friends_add s.db user_id req.friend_id } := by
  by_cases h1 : s.are_friends user_id req.friend_id
  · left
    unfold WarhorseServer.accept_friend_request
    simp [h1]
  · by_cases h2 : DataAccess.user_is_blocked s.db user_id req.friend_id
    · left
      unfold WarhorseServer.accept_friend_request
      simp [h1, h2]
    · by_cases h3 : DataAccess.user_is_blocked s.db req.friend_id user_id
      · left
        unfold WarhorseServer.accept_friend_request
        simp [h1, h2, h3]
      · right
        exact accept_friend_request_state s user_id req
          (by simpa using h1) (by simpa using h2) (by simpa using h3)

theorem send_friend_request_state_cases (s : WarhorseServer) (sender_id : UserId)
    (req : FriendRequest) :
    (s.send_friend_request sender_id req).state = s ∨
      ((s.send_friend_request sender_id req).state =
          { s with db := DataAccess.friend_requests_insert s.db sender_id req.friend_id } ∧
        s.are_friends sender_id req.friend_id = false ∧
        DataAccess.user_exists s.db req.friend_id = true) := by
  unfold WarhorseServer.send_friend_request
  by_cases h1 : s.are_friends sender_id req.friend_id
  · left; simp [h1]
  · by_cases h2 : DataAccess.user_is_blocked s.db sender_id req.friend_id
    · left; simp [h1, h2]
    · by_cases h3 : DataAccess.user_is_blocked s.db req.friend_id sender_id
      · left; simp [h1, h2, h3]
      · by_cases h4 : DataAccess.user_exists s.db req.friend_id
        · right
          simp [h1, h2, h3, h4]
        · left; simp [h1, h2, h3, h4]

theorem register_user_db_cases (s : WarhorseServer) (req : UserRegistration)
    (socket_id : Option SocketId) :
    (s.register_user req socket_id).state.db = s.db ∨
      ((s.register_user req socket_id).state.db = (DataAccess.users_insert s.db req).2 ∧
        DataAccess.users_get_by_account_name s.db req.account_name = none ∧
        DataAccess.users_get_by_email s.db req.email = none) := by
  unfold WarhorseServer.register_user
  cases validate_password req.password req.language with
  | error e => left; rfl
  | ok _ =>
  cases validate_account_name req.account_name req.language with
  | error e => left; rfl
  | ok _ =>
  cases validate_display_name req.display_name req.language with
  | error e => left; rfl
  | ok _ =>
  by_cases he : is_valid_email req.email
  · simp only [he, Bool.not_true, Bool.false_eq_true, if_false]
    by_cases hn : (DataAccess.users_get_by_account_name s.db req.account_name).isSome
    · left; simp [hn]
    · simp only [hn, Bool.false_eq_true, if_false]
      by_cases hm : (DataAccess.users_get_by_email s.db req.email).isSome
      · left; simp [hm]
      · right
        refine ⟨?_, Option.not_isSome_iff_eq_none.mp (by simpa using hn),
          Option.not_isSome_iff_eq_none.mp (by simpa using hm)⟩
        simp only [hm, Bool.false_eq_true, if_false]
        cases socket_id <;> rfl
  · left
    simp [he]

theorem DbInv_register_user (s : WarhorseServer) (req : UserRegistration)
    (socket_id : Option SocketId) (h : DbInv s.db) :
    DbInv (s.register_user req socket_id).state.db := by
  rcases register_user_db_cases s req socket_id with hc | ⟨hc, hn, hm⟩
  · rw [hc]; exact h
  · rw [hc]
    exact DbInv_users_insert s.db req h hn hm

theorem DbInv_send_friend_request (s : WarhorseServer) (sender_id : UserId)
    (req : FriendRequest) (h : DbInv s.db) (hab : sender_id ≠ req.friend_id) :
    DbInv (s.send_friend_request sender_id req).state.db := by
  rcases send_friend_request_state_cases s sender_id req with hc | ⟨hc, hnf, hex⟩
  · rw [hc]; exact h
  · rw [hc]
    refine DbInv_friend_requests_insert s.db sender_id req.friend_id h hab ?_ hex
    intro hmem
    rcases Option.isSome_iff_exists.mp hex with ⟨w, hw⟩
    have hwid : w.id = req.friend_id := h.coh _ _ hw
    have := are_friends_of_invite s sender_id req.friend_id w hw hwid hmem
    rw [this] at hnf
    exact Bool.true_eq_false.mp hnf

theorem DbInv_accept_friend_request (s : WarhorseServer) (user_id : UserId)
    (req : AcceptFriendRequest) (h : DbInv s.db) :
    DbInv (s.accept_friend_request user_id req).state.db := by
  rcases accept_friend_request_state_cases s user_id req with hc | hc
  · rw [hc]; exact h
  · rw [hc]
    exact DbInv_friends_add s.db user_id req.friend_id h

theorem DbInv_reject_friend_request (s : WarhorseServer) (user_id : UserId)
    (req : RejectFriendRequest) (h : DbInv s.db) :
    DbInv (s.reject_friend_request user_id req).state.db := by
  rw [reject_friend_request_state]
  exact DbInv_friend_requests_remove s.db user_id req.friend_id h

theorem DbInv_remove_friend (s : WarhorseServer) (user_id : UserId)
    (req : RemoveFriendRequest) (h : DbInv s.db) :
    DbInv (s.remove_friend user_id req).state.db := by
  rw [remove_friend_state]
  exact DbInv_da_friends_remove s.db user_id req.friend_id h

theorem DbInv_block_user (s : WarhorseServer) (user_id : UserId)
    (req : BlockUserRequest) (h : DbInv s.db) :
    DbInv (s.block_user user_id req).state.db := by
  rw [block_user_state]
  exact DbInv_da_user_blocks_insert _ user_id req.user_id
    (DbInv_da_friends_remove s.db user_id req.user_id h)

theorem DbInv_unblock_user (s : WarhorseServer) (user_id : UserId)
    (req : UnblockUserRequest) (h : DbInv s.db) :
    DbInv (s.unblock_user user_id req).state.db := by
  rw [unblock_user_state]
  exact DbInv_blocks_remove s.db user_id req.user_id h

theorem DbInv_handle (s : WarhorseServer) (c : Command) (h : DbInv s.db) :
    DbInv (handle s c).state.db := by
  cases c with
  | connect sid =>
    by_cases hmem : sid ∈ s.sockets <;> simp [handle, hmem] <;> exact h
  | disconnect sid => exact h
  | login sid req =>
    by_cases hmem : sid ∈ s.sockets
    · simp only [handle, if_pos hmem]
      cases hr : (s.login_user req sid).res <;>
        simpa [hr, login_user_db] using h
    · simp only [handle, if_neg hmem]
      exact h
  | register sid req =>
    by_cases hmem : sid ∈ s.sockets
    · simp only [handle, if_pos hmem]
      cases hr : (s.register_user req (some sid)).res <;>
        simpa [hr] using DbInv_register_user s req (some sid) h
    · simp only [handle, if_neg hmem]
      exact h
  | chat sid req =>
    by_cases hmem : sid ∈ s.sockets
    · simp only [handle, if_pos hmem]
      cases hu : s.get_logged_in_user_id sid with
      | none => simpa using h
      | some user_id =>
        simpa [send_chat_message_state] using h
    · simp only [handle, if_neg hmem]
      exact h
  | friendRequest sid req =>
    by_cases hmem : sid ∈ s.sockets
    · simp only [handle, if_pos hmem]
      cases hu : s.get_logged_in_user_id sid with
      | none => simpa using h
      | some sender_id =>
        by_cases hself : sender_id = req.friend_id
        · simpa [hself] using h
        · simpa [hself] using DbInv_send_friend_request s sender_id req h hself
    · simp only [handle, if_neg hmem]
      exact h
  | acceptRequest sid req =>
    by_cases hmem : sid ∈ s.sockets
    · simp only [handle, if_pos hmem]
      cases hu : s.get_logged_in_user_id sid with
      | none => simpa using h
      | some user_id => simpa using DbInv_accept_friend_request s user_id req h
    · simp only [handle, if_neg hmem]
      exact h
  | rejectRequest sid req =>
    by_cases hmem : sid ∈ s.sockets
    · simp only [handle, if_pos hmem]
      cases hu : s.get_logged_in_user_id sid with
      | none => simpa using h
      | some user_id => simpa using DbInv_reject_friend_request s user_id req h
    · simp only [handle, if_neg hmem]
      exact h
  | removeFriend sid req =>
    by_cases hmem : sid ∈ s.sockets
    · simp only [handle, if_pos hmem]
      cases hu : s.get_logged_in_user_id sid with
      | none => simpa using h
      | some user_id => simpa using DbInv_remove_friend s user_id req h
    · simp only [handle, if_neg hmem]
      exact h
  | blockUser sid req =>
    by_cases hmem : sid ∈ s.sockets
    · simp only [handle, if_pos hmem]
      cases hu : s.get_logged_in_user_id sid with
      | none => simpa using h
      | some user_id => simpa using DbInv_block_user s user_id req h
    · simp only [handle, if_neg hmem]
      exact h
  | unblockUser sid req =>
    by_cases hmem : sid ∈ s.sockets
    · simp only [handle, if_pos hmem]
      cases hu : s.get_logged_in_user_id sid with
      | none => simpa using h
      | some user_id => simpa using DbInv_unblock_user s user_id req h
    · simp only [handle, if_neg hmem]
      exact h

theorem DbInv_reachable (s : WarhorseServer) (h : Reachable s) : DbInv s.db := by
  induction h with
  | init => exact DbInv_empty
  | step s c hs ih => exact DbInv_handle s c ih

theorem errEmissions_append (l l' : List Emission) :
    errEmissions (l ++ l') = errEmissions l ++ errEmissions l' := by
  unfold errEmissions
  rw [List.filter_append]

theorem errEmissions_send_friend_list (s : WarhorseServer) (u : UserId) :
    errEmissions (s.send_friend_list u) = [] := by
  unfold WarhorseServer.send_friend_list
  cases hg : s.get_socket_id u with
  | error e => simp [hg, errEmissions]
  | ok sid =>
    cases hs : s.get_socket sid <;> simp [hg, hs, errEmissions, Payload.isErr]

theorem errEmissions_send_friend_requests (s : WarhorseServer) (u : UserId) :
    errEmissions (s.send_friend_requests u) = [] := by
  unfold WarhorseServer.send_friend_requests
  cases hg : s.get_socket_id u with
  | error e => simp [hg, errEmissions]
  | ok sid =>
    cases hs : s.get_socket sid <;> simp [hg, hs, errEmissions, Payload.isErr]

theorem errEmissions_send_post_login_event (s : WarhorseServer) (u : UserId) :
    errEmissions (s.send_post_login_event u) = [] := by
  unfold WarhorseServer.send_post_login_event
  cases hg : s.get_socket_id u with
  | error e => simp [hg, errEmissions]
  | ok sid =>
    cases hs : s.get_socket sid <;> simp [hg, hs, errEmissions, Payload.isErr]

theorem errEmissions_send_post_login_data (s : WarhorseServer) (u : UserId) :
    errEmissions (s.send_post_login_data u) = [] := by
  unfold WarhorseServer.send_post_login_data
  rw [errEmissions_append, errEmissions_append, errEmissions_send_friend_list,
    errEmissions_send_friend_requests, errEmissions_send_post_login_event]
  rfl

theorem errEmissions_login_user (s : WarhorseServer) (req : UserLogin)
    (sid : SocketId) : errEmissions (s.login_user req sid).emissions = [] := by
  unfold WarhorseServer.login_user
  cases req.identity with
  | AccountName n =>
    cases hm : DataAccess.users_get_by_account_name s.db n with
    | none => simp [hm, errEmissions]
    | some user =>
      simp only [hm]
      exact errEmissions_send_post_login_data _ _
  | Email e =>
    cases hm : DataAccess.users_get_by_email s.db e with
    | none => simp [hm, errEmissions]
    | some user =>
      simp only [hm]
      exact errEmissions_send_post_login_data _ _

theorem errEmissions_register_user (s : WarhorseServer) (req : UserRegistration)
    (socket_id : Option SocketId) :
    errEmissions (s.register_user req socket_id).emissions = [] := by
  unfold WarhorseServer.register_user
  cases validate_password req.password req.language with
  | error e => simp [errEmissions]
  | ok _ =>
  cases validate_account_name req.account_name req.language with
  | error e => simp [errEmissions]
  | ok _ =>
  cases validate_display_name req.display_name req.language with
  | error e => simp [errEmissions]
  | ok _ =>
  by_cases he : is_valid_email req.email
  · simp only [he, Bool.not_true, Bool.false_eq_true, if_false]
    by_cases hn : (DataAccess.users_get_by_account_name s.db req.account_name).isSome
    · simp [hn, errEmissions]
    · simp only [hn, Bool.false_eq_true, if_false]
      by_cases hm : (DataAccess.users_get_by_email s.db req.email).isSome
      · simp [hm, errEmissions]
      · simp only [hm, Bool.false_eq_true, if_false]
        cases socket_id with
        | none => simp [errEmissions]
        | some sid => exact errEmissions_send_post_login_data _ _
  · simp [he, errEmissions]

theorem errEmissions_send_chat_message (s : WarhorseServer) (sender_id : UserId)
    (message : SendChatMessage) :
    errEmissions (s.send_chat_message sender_id message).emissions = [] := by
  unfold WarhorseServer.send_chat_message
  cases hu : DataAccess.users_get s.db sender_id with
  | none => simp [errEmissions]
  | some user =>
    cases message.channel with
    | PrivateMessage user_id =>
      by_cases h1 : s.are_friends sender_id user_id
      · simp only [h1, if_true]
        by_cases h2 : DataAccess.user_is_blocked s.db sender_id user_id
        · simp [h2, errEmissions]
        · simp only [h2, Bool.false_eq_true, if_false]
          by_cases h3 : DataAccess.user_is_blocked s.db user_id sender_id
          · simp [h3, errEmissions]
          · simp only [h3, Bool.false_eq_true, if_false]
            cases hg : s.get_socket_id user_id with
            | error e => simp [hg, errEmissions]
            | ok socket_id =>
              cases hs : s.get_socket socket_id <;>
                simp [hg, hs, errEmissions, Payload.isErr]
      · simp [h1, errEmissions]
    | Room room_id =>
      by_cases h1 : s.user_in_room sender_id room_id
      · simp only [h1, if_true]
        simp [errEmissions, List.filter_eq_nil_iff, Payload.isErr]
      · simp [h1, errEmissions]

theorem errEmissions_send_friend_request (s : WarhorseServer) (sender_id : UserId)
    (req : FriendRequest) :
    errEmissions (s.send_friend_request sender_id req).emissions = [] := by
  unfold WarhorseServer.send_friend_request
  by_cases h1 : s.are_friends sender_id req.friend_id
  · simp [h1, errEmissions]
  · simp only [h1, Bool.false_eq_true, if_false]
    by_cases h2 : DataAccess.user_is_blocked s.db sender_id req.friend_id
    · simp [h2, errEmissions]
    · simp only [h2, Bool.false_eq_true, if_false]
      by_cases h3 : DataAccess.user_is_blocked s.db req.friend_id sender_id
      · simp [h3, errEmissions]
      · simp only [h3, Bool.false_eq_true, if_false]
        by_cases h4 : DataAccess.user_exists s.db req.friend_id
        · simp only [h4, if_true]
          simp [errEmissions_append, errEmissions_send_friend_list,
            errEmissions_send_friend_requests]
        · simp [h4, errEmissions]

theorem errEmissions_accept_friend_request (s : WarhorseServer) (user_id : UserId)
    (req : AcceptFriendRequest) :
    errEmissions (s.accept_friend_request user_id req).emissions = [] := by
  unfold WarhorseServer.accept_friend_request
  by_cases h1 : s.are_friends user_id req.friend_id
  · simp [h1, errEmissions]
  · simp only [h1, Bool.false_eq_true, if_false]
    by_cases h2 : DataAccess.user_is_blocked s.db user_id req.friend_id
    · simp [h2, errEmissions]
    · simp only [h2, Bool.false_eq_true, if_false]
      by_cases h3 : DataAccess.user_is_blocked s.db req.friend_id user_id
      · simp [h3, errEmissions]
      · simp only [h3, Bool.false_eq_true, if_false]
        cases hg : WarhorseServer.get_socket_id
            { s with db := DataAccess.friends_add s.db user_id req.friend_id }
            user_id with
        | error e => simp [hg, errEmissions]
        | ok user_socket_id =>
          cases hs : WarhorseServer.get_socket
              { s with db := DataAccess.friends_add s.db user_id req.friend_id }
              user_socket_id with
          | none => simp [hg, hs, errEmissions]
          | some sock =>
            cases hu : DataAccess.users_get
                (DataAccess.friends_add s.db user_id req.friend_id) req.friend_id with
            | none => simp [hg, hs, hu, errEmissions]
            | some user =>
              simp only [hg, hs, hu]
              rw [errEmissions_append, errEmissions_append,
                errEmissions_send_friend_list, errEmissions_send_friend_list]
              simp [errEmissions, Payload.isErr]

theorem errEmissions_reject_friend_request (s : WarhorseServer) (user_id : UserId)
    (req : RejectFriendRequest) :
    errEmissions (s.reject_friend_request user_id req).emissions = [] := by
  unfold WarhorseServer.reject_friend_request
  simp [errEmissions_append, errEmissions_send_friend_list]

theorem errEmissions_remove_friend (s : WarhorseServer) (user_id : UserId)
    (req : RemoveFriendRequest) :
    errEmissions (s.remove_friend user_id req).emissions = [] := by
  unfold WarhorseServer.remove_friend
  simp [errEmissions_append, errEmissions_send_friend_list]

theorem errEmissions_block_user (s : WarhorseServer) (user_id : UserId)
    (req : BlockUserRequest) :
    errEmissions (s.block_user user_id req).emissions = [] := by
  unfold WarhorseServer.block_user
  simp [errEmissions_append, errEmissions_send_friend_list]

theorem errEmissions_unblock_user (s : WarhorseServer) (user_id : UserId)
    (req : UnblockUserRequest) :
    errEmissions (s.unblock_user user_id req).emissions = [] := by
  unfold WarhorseServer.unblock_user
  simp [errEmissions_append, errEmissions_send_friend_list]

/-- C4 (amended): only login and registration failures are answered with an
`/error` event (exactly one, to the originating session); every other failed
command emits no `/error` event at all. -/
theorem C4_amended_only_auth_failures_emit_error (s : WarhorseServer) (c : Command) :
    errEmissions (handle s c).emissions = expectedErrors c (handle s c).failure := by
  cases c with
  | connect sid =>
    by_cases hmem : sid ∈ s.sockets <;>
      simp [handle, hmem, errEmissions, expectedErrors, Payload.isErr]
  | disconnect sid => simp [handle, errEmissions, expectedErrors]
  | login sid req =>
    by_cases hmem : sid ∈ s.sockets
    · simp only [handle, if_pos hmem]
      cases hr : (s.login_user req sid).res with
      | ok u =>
        simp only [hr]
        rw [errEmissions_login_user]
        rfl
      | error e =>
        simp only [hr]
        rw [errEmissions_append, errEmissions_login_user]
        simp [errEmissions, Payload.isErr, expectedErrors]
    · simp [handle, hmem, errEmissions, expectedErrors]
  | register sid req =>
    by_cases hmem : sid ∈ s.sockets
    · simp only [handle, if_pos hmem]
      cases hr : (s.register_user req (some sid)).res with
      | ok u =>
        simp only [hr]
        rw [errEmissions_register_user]
        rfl
      | error e =>
        simp only [hr]
        rw [errEmissions_append, errEmissions_register_user]
        simp [errEmissions, Payload.isErr, expectedErrors]
    · simp [handle, hmem, errEmissions, expectedErrors]
  | chat sid req =>
    have hexp : ∀ f, expectedErrors (.chat sid req) f = [] := by
      intro f; cases f <;> rfl
    rw [hexp]
    by_cases hmem : sid ∈ s.sockets
    · simp only [handle, if_pos hmem]
      cases hu : s.get_logged_in_user_id sid with
      | none => simp [errEmissions]
      | some user_id =>
        simp only []
        exact errEmissions_send_chat_message s user_id req
    · simp [handle, hmem, errEmissions]
  | friendRequest sid req =>
    have hexp : ∀ f, expectedErrors (.friendRequest sid req) f = [] := by
      intro f; cases f <;> rfl
    rw [hexp]
    by_cases hmem : sid ∈ s.sockets
    · simp only [handle, if_pos hmem]
      cases hu : s.get_logged_in_user_id sid with
      | none => simp [errEmissions]
      | some sender_id =>
        by_cases hself : sender_id = req.friend_id
        · simp [hself, errEmissions]
        · simp only [hself, if_neg, if_false]
          exact errEmissions_send_friend_request s sender_id req
    · simp [handle, hmem, errEmissions]
  | acceptRequest sid req =>
    have hexp : ∀ f, expectedErrors (.acceptRequest sid req) f = [] := by
      intro f; cases f <;> rfl
    rw [hexp]
    by_cases hmem : sid ∈ s.sockets
    · simp only [handle, if_pos hmem]
      cases hu : s.get_logged_in_user_id sid with
      | none => simp [errEmissions]
      | some user_id => exact errEmissions_accept_friend_request s user_id req
    · simp [handle, hmem, errEmissions]
  | rejectRequest sid req =>
    have hexp : ∀ f, expectedErrors (.rejectRequest sid req) f = [] := by
      intro f; cases f <;> rfl
    rw [hexp]
    by_cases hmem : sid ∈ s.sockets
    · simp only [handle, if_pos hmem]
      cases hu : s.get_logged_in_user_id sid with
      | none => simp [errEmissions]
      | some user_id => exact errEmissions_reject_friend_request s user_id req
    · simp [handle, hmem, errEmissions]
  | removeFriend sid req =>
    have hexp : ∀ f, expectedErrors (.removeFriend sid req) f = [] := by
      intro f; cases f <;> rfl
    rw [hexp]
    by_cases hmem : sid ∈ s.sockets
    · simp only [handle, if_pos hmem]
      cases hu : s.get_logged_in_user_id sid with
      | none => simp [errEmissions]
      | some user_id => exact errEmissions_remove_friend s user_id req
    · simp [handle, hmem, errEmissions]
  | blockUser sid req =>
    have hexp : ∀ f, expectedErrors (.blockUser sid req) f = [] := by
      intro f; cases f <;> rfl
    rw [hexp]
    by_cases hmem : sid ∈ s.sockets
    · simp only [handle, if_pos hmem]
      cases hu : s.get_logged_in_user_id sid with
      | none => simp [errEmissions]
      | some user_id => exact errEmissions_block_user s user_id req
    · simp [handle, hmem, errEmissions]
  | unblockUser sid req =>
    have hexp : ∀ f, expectedErrors (.unblockUser sid req) f = [] := by
      intro f; cases f <;> rfl
    rw [hexp]
    by_cases hmem : sid ∈ s.sockets
    · simp only [handle, if_pos hmem]
      cases hu : s.get_logged_in_user_id sid with
      | none => simp [errEmissions]
      | some user_id => exact errEmissions_unblock_user s user_id req
    · simp [handle, hmem, errEmissions]

/-! ### Inversion lemmas for the service commands -/

theorem send_friend_request_ok (s : WarhorseServer) (a : UserId) (req : FriendRequest)
    (h : (s.send_friend_request a req).res = .ok ()) :
    (s.send_friend_request a req).state =
        { s with db := DataAccess.friend_requests_insert s.db a req.friend_id } ∧
      s.are_friends a req.friend_id = false ∧
      DataAccess.user_exists s.db req.friend_id = true := by
  unfold WarhorseServer.send_friend_request at h ⊢
  by_cases h1 : s.are_friends a req.friend_id
  · simp [h1] at h
  · simp only [h1, Bool.false_eq_true, if_false] at h ⊢
    by_cases h2 : DataAccess.user_is_blocked s.db a req.friend_id
    · simp [h2] at h
    · simp only [h2, Bool.false_eq_true, if_false] at h ⊢
      by_cases h3 : DataAccess.user_is_blocked s.db req.friend_id a
      · simp [h3] at h
      · simp only [h3, Bool.false_eq_true, if_false] at h ⊢
        by_cases h4 : DataAccess.user_exists s.db req.friend_id
        · simp only [h4, if_true]
          refine ⟨trivial, ?_, trivial⟩
          simpa using h1
        · simp [h4] at h

/-! ### Claim C1 -/

/-- C1 counterexample: the friendship-symmetry invariant fails on a reachable
state. After Alice (id "0") issues AcceptFriendRequest towards Bob (id "1"),
the store holds the edge ("0","1") but not ("1","0"). -/
theorem C1_counterexample_asymmetric_friendship :
    friendshipEdge (run (setupTwoUsers ++
        [.acceptRequest 0 { language := .english, friend_id := "1" }])) "0" "1" = true ∧
    friendshipEdge (run (setupTwoUsers ++
        [.acceptRequest 0 { language := .english, friend_id := "1" }])) "1" "0" = false ∧
    Reachable (run (setupTwoUsers ++
        [.acceptRequest 0 { language := .english, friend_id := "1" }])) :=
  ⟨by decide, by decide, reachable_run _⟩

/-- C1 (amended): the friendship store is directed, not symmetric. A
non-erroring AcceptFriendRequest(acceptor, other) inserts exactly the single
directed edge (acceptor, other): afterwards an edge (x, y) exists iff it
existed before or (x, y) = (acceptor, other). -/
theorem C1_amended_accept_inserts_single_edge (s : WarhorseServer) (u : UserId)
    (req : AcceptFriendRequest)
    (h1 : s.are_friends u req.friend_id = false)
    (h2 : DataAccess.user_is_blocked s.db u req.friend_id = false)
    (h3 : DataAccess.user_is_blocked s.db req.friend_id u = false)
    (x y : UserId) :
    friendshipEdge (s.accept_friend_request u req).state x y =
      (friendshipEdge s x y || (decide (x = u) && decide (y = req.friend_id))) := by
  rw [accept_friend_request_state s u req h1 h2 h3]
  unfold friendshipEdge
  have hda : dbFriends (DataAccess.friends_add s.db u req.friend_id) x =
      if x = u then dbFriends s.db u ++ [req.friend_id] else dbFriends s.db x :=
    dbFriends_add s.db u req.friend_id x
  by_cases hx : x = u
  · rw [show ({ s with db := DataAccess.friends_add s.db u req.friend_id } :
        WarhorseServer).db = DataAccess.friends_add s.db u req.friend_id from rfl,
      hda, if_pos hx]
    subst hx
    by_cases hy : y = req.friend_id <;> simp [hy]
  · rw [show ({ s with db := DataAccess.friends_add s.db u req.friend_id } :
        WarhorseServer).db = DataAccess.friends_add s.db u req.friend_id from rfl,
      hda, if_neg hx]
    simp [hx]

/-- Witness for C1 (amended) at a concrete reachable state. -/
theorem C1_amended_witness :
    friendshipEdge ((run setupTwoUsers).accept_friend_request "0"
        { language := .english, friend_id := "1" }).state "0" "1" =
      (friendshipEdge (run setupTwoUsers) "0" "1" ||
        (decide ("0" = "0") && decide ("1" = "1"))) :=
  C1_amended_accept_inserts_single_edge (run setupTwoUsers) "0"
    { language := .english, friend_id := "1" }
    (by decide) (by decide) (by decide) "0" "1"

/-! ### Claim C2 -/

/-- C2 counterexample: with the friend request ("1" to "0") in the store and
no blocks, AcceptFriendRequest("0", "1") does not remove the request and does
not insert any friendship; it fails with the AlreadyFriends error, because
`are_friends` counts the pending request as friendship. -/
theorem C2_counterexample_accept_with_request_fails :
    requestEdge (run (setupTwoUsers ++
        [.friendRequest 1 { language := .english, friend_id := "0" }])) "1" "0" = true ∧
    (handle (run (setupTwoUsers ++
        [.friendRequest 1 { language := .english, friend_id := "0" }]))
      (.acceptRequest 0 { language := .english, friend_id := "1" })).failure =
        some (already_friends .english) ∧
    requestEdge (handle (run (setupTwoUsers ++
        [.friendRequest 1 { language := .english, friend_id := "0" }]))
      (.acceptRequest 0 { language := .english, friend_id := "1" })).state "1" "0" = true ∧
    friendshipEdge (handle (run (setupTwoUsers ++
        [.friendRequest 1 { language := .english, friend_id := "0" }]))
      (.acceptRequest 0 { language := .english, friend_id := "1" })).state "0" "1" = false ∧
    friendshipEdge (handle (run (setupTwoUsers ++
        [.friendRequest 1 { language := .english, friend_id := "0" }]))
      (.acceptRequest 0 { language := .english, friend_id := "1" })).state "1" "0" = false := by
  refine ⟨by decide, by decide, by decide, by decide, by decide⟩

/-- C2 (amended): whenever the request (other, acceptor) exists in a
reachable state and other is a registered user, AcceptFriendRequest(acceptor,
other) fails with the AlreadyFriends error and leaves the state entirely
unchanged: the request is not removed and no friendship direction is
inserted. -/
theorem C2_amended_accept_with_request_errors (s : WarhorseServer) (a : UserId)
    (req : AcceptFriendRequest) (hre : Reachable s)
    (hreq : requestEdge s req.friend_id a = true)
    (hex : DataAccess.user_exists s.db req.friend_id = true) :
    (s.accept_friend_request a req).res = .error (already_friends req.language) ∧
    (s.accept_friend_request a req).state = s := by
  have inv := DbInv_reachable s hre
  rcases Option.isSome_iff_exists.mp hex with ⟨w, hw⟩
  have hwid : w.id = req.friend_id := inv.coh _ _ hw
  have hmem : a ∈ dbReqList s.db req.friend_id := by
    unfold requestEdge at hreq
    exact of_decide_eq_true hreq
  have hfr : s.are_friends a req.friend_id = true :=
    are_friends_of_pending s a req.friend_id w hw hwid hmem
  unfold WarhorseServer.accept_friend_request
  simp [hfr]

/-- Witness for C2 (amended) at a concrete reachable state. -/
theorem C2_amended_witness :
    ((run (setupTwoUsers ++
        [.friendRequest 1 { language := .english, friend_id := "0" }])).accept_friend_request
      "0" { language := .english, friend_id := "1" }).res =
        .error (already_friends .english) ∧
    ((run (setupTwoUsers ++
        [.friendRequest 1 { language := .english, friend_id := "0" }])).accept_friend_request
      "0" { language := .english, friend_id := "1" }).state =
        run (setupTwoUsers ++
          [.friendRequest 1 { language := .english, friend_id := "0" }]) :=
  C2_amended_accept_with_request_errors _ "0" { language := .english, friend_id := "1" }
    (reachable_run _) (by decide) (by decide)

/-! ### Claim C3 -/

/-- C3: BlockUser(blocker, blocked) removes any friendship between the two
users in both directions, removes any friend request between them in both
directions, inserts the block (blocker, blocked), and succeeds. -/
theorem C3_block_user_postcondition (s : WarhorseServer) (u : UserId)
    (req : BlockUserRequest) :
    friendshipEdge (s.block_user u req).state u req.user_id = false ∧
    friendshipEdge (s.block_user u req).state req.user_id u = false ∧
    requestEdge (s.block_user u req).state u req.user_id = false ∧
    requestEdge (s.block_user u req).state req.user_id u = false ∧
    blockEdge (s.block_user u req).state u req.user_id = true ∧
    (s.block_user u req).res = .ok () := by
  rw [block_user_state]
  refine ⟨?_, ?_, ?_, ?_, ?_, rfl⟩
  · simp [friendshipEdge, mem_dbFriends_da_user_blocks_insert]
  · simp [friendshipEdge, mem_dbFriends_da_user_blocks_insert]
  · simp [requestEdge, mem_dbReqList_da_user_blocks_insert]
  · simp [requestEdge, mem_dbReqList_da_user_blocks_insert]
  · simp [blockEdge, mem_blocks_da_user_blocks_insert]

/-! ### Claim C7 -/

/-- C7 counterexample: RejectFriendRequest removes the wrong direction. With
the incoming request ("1" to "0") present, RejectFriendRequest by "0" leaves
it in the store; and with an outgoing request ("0" to "1") present, the same
command removes it, although the claim says the outgoing request is left
unchanged. -/
theorem C7_counterexample_reject_wrong_direction :
    requestEdge (run (setupTwoUsers ++
        [.friendRequest 1 { language := .english, friend_id := "0" },
         .rejectRequest 0 { language := .english, friend_id := "1" }])) "1" "0" = true ∧
    requestEdge (run (setupTwoUsers ++
        [.friendRequest 0 { language := .english, friend_id := "1" }])) "0" "1" = true ∧
    requestEdge (run (setupTwoUsers ++
        [.friendRequest 0 { language := .english, friend_id := "1" },
         .rejectRequest 0 { language := .english, friend_id := "1" }])) "0" "1" = false := by
  refine ⟨by decide, by decide, by decide⟩

/-- C7 (amended): RejectFriendRequest(rejector, other) always succeeds and
removes exactly the outgoing request (rejector, other): afterwards a request
edge (x, y) exists iff it existed before and (x, y) is not
(rejector, other); the incoming request (other, rejector) and the friendship
and block stores are untouched (a no-op when the outgoing request is
absent). -/
theorem C7_amended_reject_removes_outgoing (s : WarhorseServer) (u : UserId)
    (req : RejectFriendRequest) (x y : UserId) :
    (s.reject_friend_request u req).res = .ok () ∧
    requestEdge (s.reject_friend_request u req).state x y =
      (requestEdge s x y && !(decide (x = u) && decide (y = req.friend_id))) ∧
    (s.reject_friend_request u req).state.db.friendships = s.db.friendships ∧
    (s.reject_friend_request u req).state.db.user_blocks = s.db.user_blocks := by
  refine ⟨rfl, ?_, rfl, rfl⟩
  rw [reject_friend_request_state]
  unfold requestEdge
  have hda : dbReqList (DataAccess.friend_requests_remove s.db u req.friend_id) x =
      if x = u then (dbReqList s.db u).filter (fun w => !decide (w = req.friend_id))
      else dbReqList s.db x := dbReqList_remove s.db u req.friend_id x
  rw [show ({ s with db := DataAccess.friend_requests_remove s.db u req.friend_id } :
      WarhorseServer).db = DataAccess.friend_requests_remove s.db u req.friend_id from rfl,
    hda]
  by_cases hx : x = u
  · rw [if_pos hx]
    subst hx
    by_cases hy : y = req.friend_id <;> simp [hy, List.mem_filter]
  · rw [if_neg hx]
    simp [hx]

/-! ### Claim C4, counterexample -/

/-- C4 counterexample: a chat send that fails with a business-logic error
(sender and target are not friends) emits zero `/error` events, not exactly
one. -/
theorem C4_counterexample_failed_chat_emits_no_error :
    (handle (run setupTwoUsers)
        (.chat 0 { language := .english, channel := .PrivateMessage "1",
                   message := "hi" })).failure.isSome = true ∧
    errEmissions (handle (run setupTwoUsers)
        (.chat 0 { language := .english, channel := .PrivateMessage "1",
                   message := "hi" })).emissions = [] :=
  ⟨by decide, by decide⟩

/-! ### Claim C5 -/

/-- C5 counterexample: self-relations are reachable. BlockUser("0", "0")
inserts the block edge ("0", "0") and AcceptFriendRequest("0", "0") inserts
the friendship edge ("0", "0"), because no handler or service checks that the
two endpoints differ. -/
theorem C5_counterexample_self_block_reachable :
    blockEdge (run (setupTwoUsers ++
        [.blockUser 0 { language := .english, user_id := "0" }])) "0" "0" = true ∧
    Reachable (run (setupTwoUsers ++
        [.blockUser 0 { language := .english, user_id := "0" }])) ∧
    friendshipEdge (run (setupTwoUsers ++
        [.acceptRequest 0 { language := .english, friend_id := "0" }])) "0" "0" = true ∧
    Reachable (run (setupTwoUsers ++
        [.acceptRequest 0 { language := .english, friend_id := "0" }])) :=
  ⟨by decide, reachable_run _, by decide, reachable_run _⟩

/-- C5 (amended): among the three relations only the friend-request store is
self-free in every reachable state (the friend-request handler ignores
self-targets); self-blocks and self-friendships are reachable. -/
theorem C5_amended_no_self_friend_request (s : WarhorseServer)
    (h : Reachable s) (x : UserId) : x ∉ reqList s x :=
  (DbInv_reachable s h).reqSelf x

/-- Witness for C5 (amended) at a concrete reachable state. -/
theorem C5_amended_witness :
    "0" ∉ reqList (run (setupTwoUsers ++
        [.blockUser 0 { language := .english, user_id := "0" }])) "0" :=
  C5_amended_no_self_friend_request _ (reachable_run _) "0"

/-! ### Claim C6 -/

/-- C6: in every reachable state each sender's friend-request list has no
duplicates (at most one request per ordered pair); and after a successful
SendFriendRequest(a, b), a second identical call is rejected with the
AlreadyFriends error and leaves the state unchanged. -/
theorem C6_send_friend_request_idempotent :
    (∀ s : WarhorseServer, Reachable s → ∀ x, (reqList s x).Nodup) ∧
    (∀ (s : WarhorseServer) (a : UserId) (req : FriendRequest) (lang2 : Language),
      Reachable s → (s.send_friend_request a req).res = .ok () →
      (((s.send_friend_request a req).state.send_friend_request a
          { language := lang2, friend_id := req.friend_id }).state =
            (s.send_friend_request a req).state ∧
        ((s.send_friend_request a req).state.send_friend_request a
          { language := lang2, friend_id := req.friend_id }).res =
            .error (already_friends lang2))) := by
  constructor
  · intro s h x
    exact (DbInv_reachable s h).reqNodup x
  · intro s a req lang2 hre hok
    obtain ⟨hstate, hnf, hex⟩ := send_friend_request_ok s a req hok
    have hex' : (mapGet s.db.users req.friend_id).isSome = true := hex
    obtain ⟨w, hw⟩ := Option.isSome_iff_exists.mp hex'
    have hwid : w.id = req.friend_id := (DbInv_reachable s hre).coh _ _ hw
    have husers : (s.send_friend_request a req).state.db.users = s.db.users := by
      rw [hstate]
      exact friend_requests_insert_users s.db a req.friend_id
    have hw1 : (s.send_friend_request a req).state.db.users_get req.friend_id = some w := by
      show mapGet (s.send_friend_request a req).state.db.users req.friend_id = some w
      rw [husers]
      exact hw
    have hmem : req.friend_id ∈ dbReqList (s.send_friend_request a req).state.db a := by
      rw [hstate]
      show req.friend_id ∈ dbReqList (s.db.friend_requests_insert a req.friend_id) a
      rw [dbReqList_insert]
      simp
    have hfr : (s.send_friend_request a req).state.are_friends a req.friend_id = true :=
      are_friends_of_invite _ a req.friend_id w hw1 hwid hmem
    set s1 := (s.send_friend_request a req).state with hs1
    constructor
    · show (s1.send_friend_request a { language := lang2, friend_id := req.friend_id }).state = s1
      unfold WarhorseServer.send_friend_request
      simp [hfr]
    · show (s1.send_friend_request a { language := lang2, friend_id := req.friend_id }).res =
        .error (already_friends lang2)
      unfold WarhorseServer.send_friend_request
      simp [hfr]

/-- Witness for C6 at a concrete reachable state: registered users "0" and
"1", the first request succeeds, the second identical one errors. -/
theorem C6_witness :
    (reqList (run setupTwoUsers) "0").Nodup ∧
    (((run setupTwoUsers).send_friend_request "0"
        { language := .english, friend_id := "1" }).state.send_friend_request "0"
        { language := .english, friend_id := "1" }).res =
      .error (already_friends .english) :=
  ⟨C6_send_friend_request_idempotent.1 (run setupTwoUsers) (reachable_run _) "0",
    (C6_send_friend_request_idempotent.2 (run setupTwoUsers) "0"
      { language := .english, friend_id := "1" } .english (reachable_run _)
      (by decide)).2⟩

/-- C8 counterexample: registration deduplicates account names with an exact,
case-sensitive comparison, so "alice" and "Alice" both register and the
lowercased account names are not unique across users in a reachable state. -/
theorem C8_counterexample_case_insensitive_name_not_unique :
    (mapGet (run [.connect 0, .register 0 aliceReg, .connect 1,
        .register 1 aliceUpperReg]).db.users "0").map
        (fun u => u.account_name_lower) = some (some "alice") ∧
    (mapGet (run [.connect 0, .register 0 aliceReg, .connect 1,
        .register 1 aliceUpperReg]).db.users "1").map
        (fun u => u.account_name_lower) = some (some "alice") ∧
    Reachable (run [.connect 0, .register 0 aliceReg, .connect 1,
        .register 1 aliceUpperReg]) :=
  ⟨by decide, by decide, reachable_run _⟩

/-- C8 (amended): the exact (case-sensitive) account name and the exact email
of each user are unique across users in every reachable state; a Register
command passing field validation whose exact account name (resp. email)
already belongs to an existing user fails with AccountNameTaken
(resp. EmailTaken) and inserts no user. -/
theorem C8_amended_exact_uniqueness :
    (∀ s : WarhorseServer, Reachable s → ∀ k1 k2 u1 u2,
      mapGet s.db.users k1 = some u1 → mapGet s.db.users k2 = some u2 →
      (u1.account_name = u2.account_name ∨ u1.email = u2.email) → k1 = k2) ∧
    (∀ (s : WarhorseServer) (req : UserRegistration) (so : Option SocketId),
      validate_password req.password req.language = .ok () →
      validate_account_name req.account_name req.language = .ok () →
      validate_display_name req.display_name req.language = .ok () →
      is_valid_email req.email = true →
      (DataAccess.users_get_by_account_name s.db req.account_name).isSome = true →
      ((s.register_user req so).res = .error (account_name_already_exists req.language) ∧
        (s.register_user req so).state = s)) ∧
    (∀ (s : WarhorseServer) (req : UserRegistration) (so : Option SocketId),
      validate_password req.password req.language = .ok () →
      validate_account_name req.account_name req.language = .ok () →
      validate_display_name req.display_name req.language = .ok () →
      is_valid_email req.email = true →
      DataAccess.users_get_by_account_name s.db req.account_name = none →
      (DataAccess.users_get_by_email s.db req.email).isSome = true →
      ((s.register_user req so).res = .error (email_already_exists req.language) ∧
        (s.register_user req so).state = s)) := by
  refine ⟨?_, ?_, ?_⟩
  · intro s h k1 k2 u1 u2 h1 h2 hor
    rcases hor with he | he
    · exact (DbInv_reachable s h).nameUniq k1 k2 u1 u2 h1 h2 he
    · exact (DbInv_reachable s h).emailUniq k1 k2 u1 u2 h1 h2 he
  · intro s req so hp ha hd he hn
    unfold WarhorseServer.register_user
    rw [hp, ha, hd]
    simp [he, hn]
  · intro s req so hp ha hd he hn hm
    unfold WarhorseServer.register_user
    rw [hp, ha, hd]
    simp [he, hn, hm]

/-- Witness for C8 (amended): duplicate-name and duplicate-email
registrations fail on a concrete reachable state. -/
theorem C8_amended_witness :
    ((run setupTwoUsers).register_user aliceReg (some 0)).res =
      .error (account_name_already_exists .english) ∧
    ((run setupTwoUsers).register_user
        { language := .english, account_name := "carol", email := "alice@example.com",
          display_name := "Carol", password := "password" } (some 0)).res =
      .error (email_already_exists .english) :=
  ⟨(C8_amended_exact_uniqueness.2.1 (run setupTwoUsers) aliceReg (some 0)
      (by decide) (by decide) (by decide) (by decide) (by decide)).1,
    (C8_amended_exact_uniqueness.2.2 (run setupTwoUsers)
      { language := .english, account_name := "carol", email := "alice@example.com",
        display_name := "Carol", password := "password" } (some 0)
      (by decide) (by decide) (by decide) (by decide) (by decide) (by decide)).1⟩

/-! ### Claim C9 -/

theorem send_chat_message_pm_fail (s : WarhorseServer)
    (sender recipient : UserId) (lang : Language) (text : String)
    (h : s.are_friends sender recipient = false ∨
      DataAccess.user_is_blocked s.db sender recipient = true ∨
      DataAccess.user_is_blocked s.db recipient sender = true) :
    (∃ e, (s.send_chat_message sender
        { language := lang, channel := .PrivateMessage recipient,
          message := text }).res = .error e) ∧
      (s.send_chat_message sender
        { language := lang, channel := .PrivateMessage recipient,
          message := text }).emissions = [] := by
  unfold WarhorseServer.send_chat_message
  cases hu : DataAccess.users_get s.db sender with
  | none => exact ⟨⟨sender ++ " does not exist", rfl⟩, rfl⟩
  | some u =>
    by_cases h1 : s.are_friends sender recipient
    · simp only [h1, if_true]
      by_cases h2 : DataAccess.user_is_blocked s.db sender recipient
      · simp [h2]
      · simp only [h2, Bool.false_eq_true, if_false]
        by_cases h3 : DataAccess.user_is_blocked s.db recipient sender
        · simp [h3]
        · exfalso
          rcases h with h | h | h
          · rw [h1] at h; exact Bool.true_eq_false.mp h
          · exact h2 h
          · exact h3 h
    · simp [h1]

/-- C9 counterexample: a whisper is delivered to a user who is not a friend.
With only a pending friend request from "0" to "1" (no friendship), the
private chat message is emitted to "1"'s session and the command succeeds. -/
theorem C9_counterexample_whisper_delivered_to_non_friend :
    friendshipEdge (run (setupTwoUsers ++
        [.friendRequest 0 { language := .english, friend_id := "1" }])) "0" "1" = false ∧
    ((run (setupTwoUsers ++
        [.friendRequest 0 { language := .english, friend_id := "1" }])).send_chat_message
      "0" { language := .english, channel := .PrivateMessage "1",
            message := "hi" }).res = .ok () ∧
    ((run (setupTwoUsers ++
        [.friendRequest 0 { language := .english, friend_id := "1" }])).send_chat_message
      "0" { language := .english, channel := .PrivateMessage "1",
            message := "hi" }).emissions =
      [{ target := 1, event := EVENT_RECEIVE_CHAT_MESSAGE,
         payload := .chat { display_name := "Alice", channel := .PrivateMessage "1",
                            message := "hi", time := 0 } }] :=
  ⟨by decide, by decide, by decide⟩

/-- C9 (amended): a whisper on PrivateMessage(recipient) fails with no chat
emission whenever `are_friends` is false (the combined relationship check of
the implementation, which also counts pending requests and blocks) or either
direction of block exists; it delivers exactly one composed chat message to
the recipient's session when `are_friends` holds, neither blocks the other,
the sender is registered and the recipient has a live session. -/
theorem C9_amended_whisper_authorization :
    (∀ (s : WarhorseServer) (sender recipient : UserId) (lang : Language)
        (text : String),
      s.are_friends sender recipient = false →
      ((∃ e, (s.send_chat_message sender
          { language := lang, channel := .PrivateMessage recipient,
            message := text }).res = .error e) ∧
        (s.send_chat_message sender
          { language := lang, channel := .PrivateMessage recipient,
            message := text }).emissions = [])) ∧
    (∀ (s : WarhorseServer) (sender recipient : UserId) (lang : Language)
        (text : String),
      (DataAccess.user_is_blocked s.db sender recipient = true ∨
        DataAccess.user_is_blocked s.db recipient sender = true) →
      ((∃ e, (s.send_chat_message sender
          { language := lang, channel := .PrivateMessage recipient,
            message := text }).res = .error e) ∧
        (s.send_chat_message sender
          { language := lang, channel := .PrivateMessage recipient,
            message := text }).emissions = [])) ∧
    (∀ (s : WarhorseServer) (sender recipient : UserId) (lang : Language)
        (text : String) (u : UserPartial) (sid : SocketId),
      s.are_friends sender recipient = true →
      DataAccess.user_is_blocked s.db sender recipient = false →
      DataAccess.user_is_blocked s.db recipient sender = false →
      DataAccess.users_get s.db sender = some u →
      mapGet s.user_sockets recipient = some sid →
      sid ∈ s.sockets →
      ((s.send_chat_message sender
          { language := lang, channel := .PrivateMessage recipient,
            message := text }).res = .ok () ∧
        (s.send_chat_message sender
          { language := lang, channel := .PrivateMessage recipient,
            message := text }).emissions =
          [{ target := sid, event := EVENT_RECEIVE_CHAT_MESSAGE,
             payload := .chat { display_name := u.display_name,
                                channel := .PrivateMessage recipient,
                                message := text, time := s.now } }])) := by
  refine ⟨?_, ?_, ?_⟩
  · intro s sender recipient lang text h
    exact send_chat_message_pm_fail s sender recipient lang text (Or.inl h)
  · intro s sender recipient lang text h
    rcases h with h | h
    · exact send_chat_message_pm_fail s sender recipient lang text (Or.inr (Or.inl h))
    · exact send_chat_message_pm_fail s sender recipient lang text (Or.inr (Or.inr h))
  · intro s sender recipient lang text u sid h1 h2 h3 hu hsock hlive
    unfold WarhorseServer.send_chat_message
    rw [hu]
    simp only [h1, h2, h3, Bool.false_eq_true, if_false, if_true]
    have hgid : s.get_socket_id recipient = .ok sid := by
      unfold WarhorseServer.get_socket_id
      rw [hsock]
    have hgs : s.get_socket sid = some sid := by
      unfold WarhorseServer.get_socket
      rw [if_pos hlive]
    rw [hgid]
    simp [hgs]

/-- Witness for C9 (amended) at concrete reachable states: not-friends fails,
blocked fails, and a pending request (are_friends true without friendship)
delivers. -/
theorem C9_amended_witness :
    (∃ e, ((run setupTwoUsers).send_chat_message "0"
      { language := .english, channel := .PrivateMessage "1",
        message := "hi" }).res = .error e) ∧
    (∃ e, ((run (setupTwoUsers ++
        [.blockUser 0 { language := .english, user_id := "1" }])).send_chat_message "0"
      { language := .english, channel := .PrivateMessage "1",
        message := "hi" }).res = .error e) ∧
    ((run (setupTwoUsers ++
        [.friendRequest 0 { language := .english, friend_id := "1" }])).send_chat_message
      "0" { language := .english, channel := .PrivateMessage "1",
            message := "hi" }).res = .ok () := by
  have h1 : (run setupTwoUsers).are_friends "0" "1" = false := by decide
  have hb : DataAccess.user_is_blocked
      (run (setupTwoUsers ++ [.blockUser 0 { language := .english, user_id := "1" }])).db
      "0" "1" = true := by decide
  have hf : (run (setupTwoUsers ++
      [.friendRequest 0 { language := .english, friend_id := "1" }])).are_friends
      "0" "1" = true := by decide
  have hnb1 : DataAccess.user_is_blocked
      (run (setupTwoUsers ++ [.friendRequest 0 { language := .english, friend_id := "1" }])).db
      "0" "1" = false := by decide
  have hnb2 : DataAccess.user_is_blocked
      (run (setupTwoUsers ++ [.friendRequest 0 { language := .english, friend_id := "1" }])).db
      "1" "0" = false := by decide
  have hu : DataAccess.users_get
      (run (setupTwoUsers ++ [.friendRequest 0 { language := .english, friend_id := "1" }])).db
      "0" = some aliceUser := by decide
  have hsock : mapGet
      (run (setupTwoUsers ++ [.friendRequest 0 { language := .english, friend_id := "1" }])).user_sockets
      "1" = some 1 := by decide
  have hlive : (1 : SocketId) ∈
      (run (setupTwoUsers ++ [.friendRequest 0 { language := .english, friend_id := "1" }])).sockets := by
    decide
  refine ⟨(C9_amended_whisper_authorization.1 _ "0" "1" .english "hi" h1).1,
    (C9_amended_whisper_authorization.2.1 _ "0" "1" .english "hi" (Or.inl hb)).1,
    (C9_amended_whisper_authorization.2.2 _ "0" "1" .english "hi" _ 1
      hf hnb1 hnb2 hu hsock hlive).1⟩

/-! ### Claim C10 -/

/-- C10: AcceptFriendRequest never requires a friend request to exist. In any
reachable state, for distinct users a and b with no relationship at all
between them (no friendship edge, no request in either direction, no block in
either direction) and a bound to a live session, AcceptFriendRequest(a, b)
succeeds and inserts the friendship edge (a, b). -/
theorem C10_accept_succeeds_without_request (s : WarhorseServer) (a : UserId)
    (req : AcceptFriendRequest) (sid : SocketId)
    (hre : Reachable s) (hab : a ≠ req.friend_id)
    (hf : friendshipEdge s a req.friend_id = false)
    (hr1 : requestEdge s a req.friend_id = false)
    (hr2 : requestEdge s req.friend_id a = false)
    (hb1 : blockEdge s a req.friend_id = false)
    (hb2 : blockEdge s req.friend_id a = false)
    (hsock : mapGet s.user_sockets a = some sid)
    (hlive : sid ∈ s.sockets) :
    (s.accept_friend_request a req).res = .ok () ∧
    friendshipEdge (s.accept_friend_request a req).state a req.friend_id = true := by
  have inv := DbInv_reachable s hre
  have hnf : s.are_friends a req.friend_id = false := by
    refine are_friends_eq_false s a req.friend_id inv.coh inv.rkeys ?_ ?_ ?_ ?_
    · exact of_decide_eq_false hf
    · exact of_decide_eq_false hr2
    · exact of_decide_eq_false hr1
    · exact of_decide_eq_false hb1
  have hblk1 : DataAccess.user_is_blocked s.db a req.friend_id = false := by
    cases hq : DataAccess.user_is_blocked s.db a req.friend_id with
    | false => rfl
    | true =>
      exact absurd ((user_is_blocked_iff s.db a req.friend_id).mp hq)
        (of_decide_eq_false hb1)
  have hblk2 : DataAccess.user_is_blocked s.db req.friend_id a = false := by
    cases hq : DataAccess.user_is_blocked s.db req.friend_id a with
    | false => rfl
    | true =>
      exact absurd ((user_is_blocked_iff s.db req.friend_id a).mp hq)
        (of_decide_eq_false hb2)
  constructor
  · unfold WarhorseServer.accept_friend_request
    simp only [hnf, hblk1, hblk2, Bool.false_eq_true, if_false]
    have hgid : WarhorseServer.get_socket_id
        { s with db := DataAccess.friends_add s.db a req.friend_id } a = .ok sid := by
      unfold WarhorseServer.get_socket_id
      rw [show ({ s with db := DataAccess.friends_add s.db a req.friend_id } :
          WarhorseServer).user_sockets = s.user_sockets from rfl, hsock]
    have hgs : WarhorseServer.get_socket
        { s with db := DataAccess.friends_add s.db a req.friend_id } sid = some sid := by
      unfold WarhorseServer.get_socket
      rw [show ({ s with db := DataAccess.friends_add s.db a req.friend_id } :
          WarhorseServer).sockets = s.sockets from rfl, if_pos hlive]
    rw [hgid]
    simp only [hgs]
    cases hu : DataAccess.users_get
        (DataAccess.friends_add s.db a req.friend_id) req.friend_id <;> simp [hu]
  · rw [accept_friend_request_state s a req hnf hblk1 hblk2]
    unfold friendshipEdge
    rw [show ({ s with db := DataAccess.friends_add s.db a req.friend_id } :
        WarhorseServer).db = DataAccess.friends_add s.db a req.friend_id from rfl]
    have hda : dbFriends (DataAccess.friends_add s.db a req.friend_id) a =
        dbFriends s.db a ++ [req.friend_id] := by
      have h0 := dbFriends_add s.db a req.friend_id a
      rw [if_pos rfl] at h0
      exact h0
    rw [hda]
    simp

/-- Witness for C10 at a concrete reachable state: two fresh users with no
relationship whatsoever, and the accept succeeds and creates the edge. -/
theorem C10_witness :
    ((run setupTwoUsers).accept_friend_request "0"
        { language := .english, friend_id := "1" }).res = .ok () ∧
    friendshipEdge ((run setupTwoUsers).accept_friend_request "0"
        { language := .english, friend_id := "1" }).state "0" "1" = true :=
  C10_accept_succeeds_without_request (run setupTwoUsers) "0"
    { language := .english, friend_id := "1" } 0 (reachable_run _)
    (by decide) (by decide) (by decide) (by decide) (by decide) (by decide)
    (by decide) (by decide)

end Warhorse
